import Mathlib

/-!
# Verification of the AQI calculator (`src/backend/aqi_calculator.py`)

Shallow embedding of the breakpoint-interpolation engine: the forward mapping
from pollutant concentration to a 0..500 index (`calculate_aqi_for_pollutant`),
the categorizer (`get_aqi_category`), the aggregator (`calculate_aqi`), the
inverse mapping (`epa_aqi_to_concentration`) and the cross-standard reconciler
(`calculate_naqi_from_epa_aqi`).

Modelling choices:
* Python floats are modelled as exact rationals (`ℚ`); the decimal literals of
  the breakpoint tables are carried over verbatim.
* Python's `round` is round-half-to-even (banker's rounding), modelled by
  `pyRound`; `round(x, 2)` is modelled by `round2`.
* Python dicts used as lookup tables (`EPA_BREAKPOINTS`, `NAQI_BREAKPOINTS`,
  `POLLUTANT_NAMES`) become string-keyed partial functions; dicts that are
  iterated over (the pollutant readings, `aqi_values`, `naqi_values`) become
  association lists in insertion order, which is Python's dict iteration order.
* The demo-mode fallback in `calculate_aqi` (random pm25 sample when no valid
  pollutant is present) is nondeterministic and outside the model: that branch
  returns `none` here.
-/

set_option maxRecDepth 8000

/-- Python's `round` to an integer: round half to even (banker's rounding). -/
def pyRound (q : ℚ) : ℤ :=
  if q - ⌊q⌋ < 1/2 then ⌊q⌋
  else if 1/2 < q - ⌊q⌋ then ⌊q⌋ + 1
  else if ⌊q⌋ % 2 = 0 then ⌊q⌋ else ⌊q⌋ + 1

/-- Python's `round(x, 2)`: round to two decimal places, half to even. -/
def round2 (q : ℚ) : ℚ := (pyRound (q * 100) : ℚ) / 100

/-- The two supported AQI calculation standards (`class AQIStandard(Enum)`). -/
inductive AQIStandard where
  | EPA
  | NAQI
deriving DecidableEq

/-- One breakpoint bracket `(C_low, C_high, I_low, I_high)`. -/
structure Breakpoint where
  c_low : ℚ
  c_high : ℚ
  i_low : ℤ
  i_high : ℤ

def EPA_PM25_BREAKPOINTS : List Breakpoint :=
  [⟨0.0, 9.0, 0, 50⟩, ⟨9.1, 35.4, 51, 100⟩, ⟨35.5, 55.4, 101, 150⟩,
   ⟨55.5, 125.4, 151, 200⟩, ⟨125.5, 225.4, 201, 300⟩, ⟨225.5, 325.4, 301, 500⟩]

def EPA_PM10_BREAKPOINTS : List Breakpoint :=
  [⟨0, 54, 0, 50⟩, ⟨55, 154, 51, 100⟩, ⟨155, 254, 101, 150⟩,
   ⟨255, 354, 151, 200⟩, ⟨355, 424, 201, 300⟩, ⟨425, 604, 301, 500⟩]

def EPA_O3_BREAKPOINTS : List Breakpoint :=
  [⟨0.000, 0.054, 0, 50⟩, ⟨0.055, 0.070, 51, 100⟩, ⟨0.071, 0.085, 101, 150⟩,
   ⟨0.086, 0.105, 151, 200⟩, ⟨0.106, 0.200, 201, 300⟩]

def EPA_CO_BREAKPOINTS : List Breakpoint :=
  [⟨0.0, 4.4, 0, 50⟩, ⟨4.5, 9.4, 51, 100⟩, ⟨9.5, 12.4, 101, 150⟩,
   ⟨12.5, 15.4, 151, 200⟩, ⟨15.5, 30.4, 201, 300⟩, ⟨30.5, 50.4, 301, 500⟩]

def EPA_NO2_BREAKPOINTS : List Breakpoint :=
  [⟨0, 53, 0, 50⟩, ⟨54, 100, 51, 100⟩, ⟨101, 360, 101, 150⟩,
   ⟨361, 649, 151, 200⟩, ⟨650, 1249, 201, 300⟩, ⟨1250, 2049, 301, 500⟩]

def EPA_SO2_BREAKPOINTS : List Breakpoint :=
  [⟨0, 35, 0, 50⟩, ⟨36, 75, 51, 100⟩, ⟨76, 185, 101, 150⟩,
   ⟨186, 304, 151, 200⟩, ⟨305, 604, 201, 300⟩, ⟨605, 1004, 301, 500⟩]

/-- The dict `EPA_BREAKPOINTS`, as a string-keyed partial function. -/
def EPA_BREAKPOINTS (p : String) : Option (List Breakpoint) :=
  if p = "pm25" then some EPA_PM25_BREAKPOINTS
  else if p = "pm10" then some EPA_PM10_BREAKPOINTS
  else if p = "o3" then some EPA_O3_BREAKPOINTS
  else if p = "co" then some EPA_CO_BREAKPOINTS
  else if p = "no2" then some EPA_NO2_BREAKPOINTS
  else if p = "so2" then some EPA_SO2_BREAKPOINTS
  else none

def NAQI_PM25_BREAKPOINTS : List Breakpoint :=
  [⟨0, 30, 0, 50⟩, ⟨31, 60, 51, 100⟩, ⟨61, 90, 101, 200⟩,
   ⟨91, 120, 201, 300⟩, ⟨121, 250, 301, 400⟩, ⟨251, 500, 401, 500⟩]

def NAQI_PM10_BREAKPOINTS : List Breakpoint :=
  [⟨0, 50, 0, 50⟩, ⟨51, 100, 51, 100⟩, ⟨101, 250, 101, 200⟩,
   ⟨251, 350, 201, 300⟩, ⟨351, 430, 301, 400⟩, ⟨431, 600, 401, 500⟩]

def NAQI_O3_BREAKPOINTS : List Breakpoint :=
  [⟨0, 50, 0, 50⟩, ⟨51, 100, 51, 100⟩, ⟨101, 168, 101, 200⟩,
   ⟨169, 208, 201, 300⟩, ⟨209, 748, 301, 400⟩, ⟨749, 1000, 401, 500⟩]

def NAQI_CO_BREAKPOINTS : List Breakpoint :=
  [⟨0, 1.0, 0, 50⟩, ⟨1.1, 2.0, 51, 100⟩, ⟨2.1, 10.0, 101, 200⟩,
   ⟨10.1, 17.0, 201, 300⟩, ⟨17.1, 34.0, 301, 400⟩, ⟨34.1, 50.0, 401, 500⟩]

def NAQI_NO2_BREAKPOINTS : List Breakpoint :=
  [⟨0, 40, 0, 50⟩, ⟨41, 80, 51, 100⟩, ⟨81, 180, 101, 200⟩,
   ⟨181, 280, 201, 300⟩, ⟨281, 400, 301, 400⟩, ⟨401, 600, 401, 500⟩]

def NAQI_SO2_BREAKPOINTS : List Breakpoint :=
  [⟨0, 40, 0, 50⟩, ⟨41, 80, 51, 100⟩, ⟨81, 380, 101, 200⟩,
   ⟨381, 800, 201, 300⟩, ⟨801, 1600, 301, 400⟩, ⟨1601, 2400, 401, 500⟩]

def NAQI_NH3_BREAKPOINTS : List Breakpoint :=
  [⟨0, 200, 0, 50⟩, ⟨201, 400, 51, 100⟩, ⟨401, 800, 101, 200⟩,
   ⟨801, 1200, 201, 300⟩, ⟨1201, 1800, 301, 400⟩, ⟨1801, 2400, 401, 500⟩]

/-- The dict `NAQI_BREAKPOINTS`, as a string-keyed partial function. -/
def NAQI_BREAKPOINTS (p : String) : Option (List Breakpoint) :=
  if p = "pm25" then some NAQI_PM25_BREAKPOINTS
  else if p = "pm10" then some NAQI_PM10_BREAKPOINTS
  else if p = "o3" then some NAQI_O3_BREAKPOINTS
  else if p = "co" then some NAQI_CO_BREAKPOINTS
  else if p = "no2" then some NAQI_NO2_BREAKPOINTS
  else if p = "so2" then some NAQI_SO2_BREAKPOINTS
  else if p = "nh3" then some NAQI_NH3_BREAKPOINTS
  else none

/-- All thirteen breakpoint tables of both standards. -/
def allTables : List (List Breakpoint) :=
  [EPA_PM25_BREAKPOINTS, EPA_PM10_BREAKPOINTS, EPA_O3_BREAKPOINTS,
   EPA_CO_BREAKPOINTS, EPA_NO2_BREAKPOINTS, EPA_SO2_BREAKPOINTS,
   NAQI_PM25_BREAKPOINTS, NAQI_PM10_BREAKPOINTS, NAQI_O3_BREAKPOINTS,
   NAQI_CO_BREAKPOINTS, NAQI_NO2_BREAKPOINTS, NAQI_SO2_BREAKPOINTS,
   NAQI_NH3_BREAKPOINTS]

/-- The linear interpolation formula
`AQI = ((I_high - I_low) / (C_high - C_low)) * (C - C_low) + I_low`. -/
def interpolate_aqi (c : ℚ) (b : Breakpoint) : ℚ :=
  (((b.i_high : ℚ) - (b.i_low : ℚ)) / (b.c_high - b.c_low)) * (c - b.c_low) + (b.i_low : ℚ)

/-- The bracket scan of `calculate_aqi_for_pollutant`: first bracket with
`c_low <= concentration <= c_high` wins; `500` if none matches. -/
def scanBrackets (c : ℚ) : List Breakpoint → ℤ
  | [] => 500
  | b :: rest =>
    if b.c_low ≤ c ∧ c ≤ b.c_high then pyRound (interpolate_aqi c b)
    else scanBrackets c rest

/-- `calculate_aqi_for_pollutant(concentration, breakpoints)`. -/
def calculate_aqi_for_pollutant (concentration : ℚ) (breakpoints : List Breakpoint) : ℤ :=
  if concentration < 0 then 0 else scanBrackets concentration breakpoints

def EPA_CATEGORIES : List (ℤ × String × String × String) :=
  [(50, "Good", "#00e400",
    "Air quality is satisfactory, and air pollution poses little or no risk."),
   (100, "Moderate", "#ffff00",
    "Air quality is acceptable. However, there may be a risk for some people, particularly those who are unusually sensitive to air pollution."),
   (150, "Unhealthy for Sensitive Groups", "#ff7e00",
    "Members of sensitive groups may experience health effects. The general public is less likely to be affected."),
   (200, "Unhealthy", "#ff0000",
    "Some members of the general public may experience health effects; members of sensitive groups may experience more serious health effects."),
   (300, "Very Unhealthy", "#8f3f97",
    "Health alert: The risk of health effects is increased for everyone."),
   (500, "Hazardous", "#7e0023",
    "Health warning of emergency conditions: everyone is more likely to be affected.")]

def NAQI_CATEGORIES : List (ℤ × String × String × String) :=
  [(50, "Good", "#009966", "Minimal impact on health."),
   (100, "Satisfactory", "#ffde33", "Minor breathing discomfort to sensitive people."),
   (200, "Moderate", "#ff9933",
    "Breathing discomfort to people with lungs, asthma and heart diseases."),
   (300, "Poor", "#ff0000", "Breathing discomfort to most people on prolonged exposure."),
   (400, "Very Poor", "#990066",
    "Respiratory illness on prolonged exposure. Effect may be felt even in healthy people."),
   (500, "Severe", "#7e0023",
    "Affects healthy people and seriously affects those with existing diseases. Avoid outdoor activities.")]

/-- The category scan of `get_aqi_category`: first entry with `aqi <= threshold`. -/
def scanCategories (aqi : ℤ) : List (ℤ × String × String × String) → Option (String × String × String)
  | [] => none
  | (threshold, category, color, message) :: rest =>
    if aqi ≤ threshold then some (category, color, message) else scanCategories aqi rest

/-- `categories[-1]` projected to `(category, color, message)`. -/
def lastCategory : List (ℤ × String × String × String) → String × String × String
  | [] => ("", "", "")
  | [(_, category, color, message)] => (category, color, message)
  | _ :: rest => lastCategory rest

/-- The category table selected by `get_aqi_category` for a standard. -/
def categoriesOf (standard : AQIStandard) : List (ℤ × String × String × String) :=
  if standard = AQIStandard.EPA then EPA_CATEGORIES else NAQI_CATEGORIES

/-- `get_aqi_category(aqi, standard)`. -/
def get_aqi_category (aqi : ℤ) (standard : AQIStandard) : String × String × String :=
  match scanCategories aqi (categoriesOf standard) with
  | some r => r
  | none => lastCategory (categoriesOf standard)

/-- The dict `POLLUTANT_NAMES`. -/
def POLLUTANT_NAMES (p : String) : Option String :=
  if p = "pm25" then some "PM2.5"
  else if p = "pm10" then some "PM10"
  else if p = "co" then some "CO"
  else if p = "no2" then some "NO₂"
  else if p = "so2" then some "SO₂"
  else if p = "o3" then some "O₃"
  else if p = "nh3" then some "NH₃"
  else none

/-- `POLLUTANT_NAMES.get(k, k.upper())`. -/
def pollutantDisplayName (p : String) : String :=
  match POLLUTANT_NAMES p with
  | some n => n
  | none => p.toUpper

/-- The result dict of `calculate_aqi`. -/
structure AQIResult where
  aqi : ℤ
  category : String
  color : String
  dominant_pollutant : String
  message : String
  standard : String
  individual_aqis : List (String × ℤ)

/-- The breakpoint table selected by `calculate_aqi` for a standard. -/
def breakpointTableOf (standard : AQIStandard) : String → Option (List Breakpoint) :=
  if standard = AQIStandard.EPA then EPA_BREAKPOINTS else NAQI_BREAKPOINTS

/-- The `aqi_values` dict built by the first loop of `calculate_aqi`: one entry
per reading whose concentration is non-null and whose pollutant has a table. -/
def computeSubIndices (table : String → Option (List Breakpoint)) :
    List (String × Option ℚ) → List (String × ℤ)
  | [] => []
  | (pollutant, conc) :: rest =>
    match conc, table pollutant with
    | some c, some breakpoints =>
      (pollutant, calculate_aqi_for_pollutant c breakpoints) :: computeSubIndices table rest
    | _, _ => computeSubIndices table rest

/-- Python's `max` over the remaining values, seeded with the first. -/
def foldMax (v : ℤ) : List (String × ℤ) → ℤ
  | [] => v
  | (_, w) :: rest => foldMax (max v w) rest

/-- Python's `max(aqi_values, key=aqi_values.get)`: the first key achieving the
maximum value (ties keep the earlier entry). -/
def foldArgmax (best : String × ℤ) : List (String × ℤ) → String × ℤ
  | [] => best
  | p :: rest => foldArgmax (if best.2 < p.2 then p else best) rest

/-- `calculate_aqi(pollutants, standard)`.  When no valid pollutant is present
the source draws a random pm25 sample (demo fallback); that nondeterministic
branch is outside the model and returns `none` here. -/
def calculate_aqi (pollutants : List (String × Option ℚ)) (standard : AQIStandard) :
    Option AQIResult :=
  match computeSubIndices (breakpointTableOf standard) pollutants with
  | [] => none
  | (p, v) :: rest =>
    let max_aqi := foldMax v rest
    let dominant_pollutant := (foldArgmax (p, v) rest).1
    let c := get_aqi_category max_aqi standard
    some { aqi := max_aqi, category := c.1, color := c.2.1,
           dominant_pollutant := pollutantDisplayName dominant_pollutant,
           message := c.2.2,
           standard := if standard = AQIStandard.EPA then "epa" else "naqi",
           individual_aqis := ((p, v) :: rest).map fun q => (pollutantDisplayName q.1, q.2) }

/-- The reverse interpolation formula
`C = ((C_high - C_low) / (I_high - I_low)) * (AQI - I_low) + C_low`. -/
def invert_interpolate (aqi : ℚ) (b : Breakpoint) : ℚ :=
  ((b.c_high - b.c_low) / ((b.i_high : ℚ) - (b.i_low : ℚ))) * (aqi - (b.i_low : ℚ)) + b.c_low

/-- The bracket scan of `epa_aqi_to_concentration`: first bracket with
`i_low <= aqi <= i_high` wins. -/
def scanInvert (aqi : ℚ) : List Breakpoint → Option ℚ
  | [] => none
  | b :: rest =>
    if (b.i_low : ℚ) ≤ aqi ∧ aqi ≤ (b.i_high : ℚ) then some (round2 (invert_interpolate aqi b))
    else scanInvert aqi rest

/-- `epa_aqi_to_concentration(aqi, pollutant)`.  The `aqi is None` guard of the
source is represented by the caller passing an actual rational. -/
def epa_aqi_to_concentration (aqi : ℚ) (pollutant : String) : Option ℚ :=
  match EPA_BREAKPOINTS pollutant with
  | none => none
  | some breakpoints =>
    match scanInvert aqi breakpoints with
    | some c => some c
    | none =>
      match breakpoints.getLast? with
      | some b => if (b.i_high : ℚ) < aqi then some (round2 (invert_interpolate aqi b)) else none
      | none => none

/-- The result dict of `calculate_naqi_from_epa_aqi`.  The sentinel dict and the
success dict of the source have different key sets; they are merged here with
`Option` fields for the keys present in only one of them. -/
structure NaqiResult where
  naqi : Option ℤ
  naqi_category : String
  naqi_color : String
  naqi_message : String
  naqi_dominant : Option String
  individual_naqi : List (String × ℤ)
  concentrations : List (String × ℚ)

/-- The `naqi_values` dict built by the loop of `calculate_naqi_from_epa_aqi`:
skip null indices, pollutants without an EPA table, failed inversions and
pollutants without a NAQI table. -/
def naqiValuesOf : List (String × Option ℚ) → List (String × ℤ)
  | [] => []
  | (pollutant, epa_aqi) :: rest =>
    match epa_aqi, EPA_BREAKPOINTS pollutant with
    | some a, some _ =>
      match epa_aqi_to_concentration a pollutant with
      | none => naqiValuesOf rest
      | some c =>
        match NAQI_BREAKPOINTS pollutant with
        | none => naqiValuesOf rest
        | some nbps => (pollutant, calculate_aqi_for_pollutant c nbps) :: naqiValuesOf rest
    | _, _ => naqiValuesOf rest

/-- The `concentrations` dict built by the same loop (recorded as rationals;
the source formats them as strings only for display). -/
def concentrationsOf : List (String × Option ℚ) → List (String × ℚ)
  | [] => []
  | (pollutant, epa_aqi) :: rest =>
    match epa_aqi, EPA_BREAKPOINTS pollutant with
    | some a, some _ =>
      match epa_aqi_to_concentration a pollutant with
      | none => concentrationsOf rest
      | some c => (pollutant, c) :: concentrationsOf rest
    | _, _ => concentrationsOf rest

/-- `calculate_naqi_from_epa_aqi(epa_aqi_values)`. -/
def calculate_naqi_from_epa_aqi (epa_aqi_values : List (String × Option ℚ)) : NaqiResult :=
  match naqiValuesOf epa_aqi_values with
  | [] =>
    { naqi := none, naqi_category := "Unknown", naqi_color := "#808080",
      naqi_message := "Unable to calculate Indian NAQI", naqi_dominant := none,
      individual_naqi := [], concentrations := concentrationsOf epa_aqi_values }
  | (p, v) :: rest =>
    let max_naqi := foldMax v rest
    let dominant := (foldArgmax (p, v) rest).1
    let c := get_aqi_category max_naqi AQIStandard.NAQI
    { naqi := some max_naqi, naqi_category := c.1, naqi_color := c.2.1, naqi_message := c.2.2,
      naqi_dominant := some (pollutantDisplayName dominant),
      individual_naqi := ((p, v) :: rest).map fun q => (pollutantDisplayName q.1, q.2),
      concentrations := concentrationsOf epa_aqi_values }

/-- Ordering between two brackets of a table: concentration ranges and index
ranges both advance (adjacent concentration ranges may leave a gap). -/
def brRel (b b' : Breakpoint) : Prop := b.c_high < b'.c_low ∧ b.i_high ≤ b'.i_low

/-- Sanity of a single bracket: nonnegative, nondegenerate, index range inside
`[0, 500]`. -/
def bracketOK (b : Breakpoint) : Prop :=
  0 ≤ b.c_low ∧ b.c_low < b.c_high ∧ 0 ≤ b.i_low ∧ b.i_low ≤ b.i_high ∧ b.i_high ≤ 500

/-- Sanity of a whole table. -/
def tableOK (T : List Breakpoint) : Prop :=
  (∀ b ∈ T, bracketOK b) ∧ List.Pairwise brRel T

/-- Last bracket's upper concentration bound (`0` for an empty table). -/
def lastCHigh : List Breakpoint → ℚ
  | [] => 0
  | [b] => b.c_high
  | _ :: rest => lastCHigh rest

/-- Last bracket's upper index bound (`0` for an empty table). -/
def lastIHigh : List Breakpoint → ℤ
  | [] => 0
  | [b] => b.i_high
  | _ :: rest => lastIHigh rest

/-- First bracket's lower index bound (`0` for an empty table). -/
def headILow : List Breakpoint → ℤ
  | [] => 0
  | b :: _ => b.i_low

/-- Integer contiguity of the index ranges: each bracket starts no later than
one past the previous bracket's upper index bound. -/
def intCov : List Breakpoint → Prop
  | [] => True
  | [_] => True
  | b :: b' :: rest => b'.i_low ≤ b.i_high + 1 ∧ intCov (b' :: rest)

theorem pyRound_intCast (n : ℤ) : pyRound (n : ℚ) = n := by
  unfold pyRound
  rw [Int.floor_intCast]
  norm_num

theorem le_pyRound (q : ℚ) : ⌈q - 1/2⌉ ≤ pyRound q := by
  have hf : (⌊q⌋ : ℚ) ≤ q := Int.floor_le q
  have hf2 : q < (⌊q⌋ : ℚ) + 1 := Int.lt_floor_add_one q
  unfold pyRound
  split_ifs with h1 h2 h3
  · exact Int.ceil_le.mpr (by linarith)
  · exact Int.ceil_le.mpr (by push_cast; linarith)
  · exact Int.ceil_le.mpr (by linarith)
  · exact Int.ceil_le.mpr (by push_cast; linarith)

theorem pyRound_le (q : ℚ) : pyRound q ≤ ⌊q + 1/2⌋ := by
  have hf : (⌊q⌋ : ℚ) ≤ q := Int.floor_le q
  have hf2 : q < (⌊q⌋ : ℚ) + 1 := Int.lt_floor_add_one q
  unfold pyRound
  split_ifs with h1 h2 h3
  · exact Int.le_floor.mpr (by linarith)
  · exact Int.le_floor.mpr (by push_cast; linarith)
  · exact Int.le_floor.mpr (by linarith)
  · exact Int.le_floor.mpr (by push_cast; linarith)

theorem pyRound_mono {a b : ℚ} (h : a ≤ b) : pyRound a ≤ pyRound b := by
  rcases eq_or_lt_of_le h with rfl | hlt
  · exact le_refl _
  · have h1 : pyRound a ≤ ⌊a + 1/2⌋ := pyRound_le a
    have h2 : ⌈b - 1/2⌉ ≤ pyRound b := le_pyRound b
    have h3 : ⌊a + 1/2⌋ ≤ ⌈b - 1/2⌉ := by
      by_contra hc
      push_neg at hc
      have hc1 : (⌈b - 1/2⌉ : ℤ) + 1 ≤ ⌊a + 1/2⌋ := hc
      have hc2 : ((⌈b - 1/2⌉ : ℤ) : ℚ) + 1 ≤ ((⌊a + 1/2⌋ : ℤ) : ℚ) := by exact_mod_cast hc1
      have hc3 : ((⌊a + 1/2⌋ : ℤ) : ℚ) ≤ a + 1/2 := Int.floor_le _
      have hc4 : (b - 1/2 : ℚ) ≤ ((⌈b - 1/2⌉ : ℤ) : ℚ) := Int.le_ceil _
      linarith
    omega

theorem le_pyRound_of_le {n : ℤ} {q : ℚ} (h : (n : ℚ) ≤ q) : n ≤ pyRound q := by
  have h1 : ⌈q - 1/2⌉ ≤ pyRound q := le_pyRound q
  have h2 : n - 1 < ⌈q - 1/2⌉ := by
    rw [Int.lt_ceil]
    push_cast
    linarith
  omega

theorem pyRound_le_of_le {n : ℤ} {q : ℚ} (h : q ≤ (n : ℚ)) : pyRound q ≤ n := by
  have h1 : pyRound q ≤ ⌊q + 1/2⌋ := pyRound_le q
  have h2 : ⌊q + 1/2⌋ < n + 1 := by
    rw [Int.floor_lt]
    push_cast
    linarith
  omega

theorem pyRound_eq_of {q : ℚ} {n : ℤ} (h1 : (n : ℚ) - 1/2 < q) (h2 : q < (n : ℚ) + 1/2) :
    pyRound q = n := by
  have hl : n ≤ pyRound q := by
    have ha : ⌈q - 1/2⌉ ≤ pyRound q := le_pyRound q
    have hb : n - 1 < ⌈q - 1/2⌉ := by
      rw [Int.lt_ceil]
      push_cast
      linarith
    omega
  have hu : pyRound q ≤ n := by
    have ha : pyRound q ≤ ⌊q + 1/2⌋ := pyRound_le q
    have hb : ⌊q + 1/2⌋ < n + 1 := by
      rw [Int.floor_lt]
      push_cast
      linarith
    omega
  omega

theorem abs_pyRound_sub (q : ℚ) : |(pyRound q : ℚ) - q| ≤ 1/2 := by
  have h1 : ⌈q - 1/2⌉ ≤ pyRound q := le_pyRound q
  have h2 : pyRound q ≤ ⌊q + 1/2⌋ := pyRound_le q
  have h3 : (q - 1/2 : ℚ) ≤ ((⌈q - 1/2⌉ : ℤ) : ℚ) := Int.le_ceil _
  have h4 : ((⌊q + 1/2⌋ : ℤ) : ℚ) ≤ q + 1/2 := Int.floor_le _
  have h5 : ((⌈q - 1/2⌉ : ℤ) : ℚ) ≤ (pyRound q : ℚ) := by exact_mod_cast h1
  have h6 : (pyRound q : ℚ) ≤ ((⌊q + 1/2⌋ : ℤ) : ℚ) := by exact_mod_cast h2
  rw [abs_le]
  constructor <;> linarith

theorem abs_round2_sub (q : ℚ) : |round2 q - q| ≤ 1/200 := by
  unfold round2
  have h := abs_pyRound_sub (q * 100)
  rw [abs_le] at h ⊢
  constructor <;> linarith [h.1, h.2]

theorem allTables_ok : ∀ T ∈ allTables, tableOK T := by
  intro T hT
  simp only [allTables, List.mem_cons, List.not_mem_nil, or_false] at hT
  rcases hT with rfl|rfl|rfl|rfl|rfl|rfl|rfl|rfl|rfl|rfl|rfl|rfl|rfl <;>
    refine ⟨fun b hb => ?_, ?_⟩
  all_goals try (norm_num [EPA_PM25_BREAKPOINTS, EPA_PM10_BREAKPOINTS, EPA_O3_BREAKPOINTS,
       EPA_CO_BREAKPOINTS, EPA_NO2_BREAKPOINTS, EPA_SO2_BREAKPOINTS,
       NAQI_PM25_BREAKPOINTS, NAQI_PM10_BREAKPOINTS, NAQI_O3_BREAKPOINTS,
       NAQI_CO_BREAKPOINTS, NAQI_NO2_BREAKPOINTS, NAQI_SO2_BREAKPOINTS,
       NAQI_NH3_BREAKPOINTS, brRel, List.pairwise_cons])
  all_goals
    (simp only [EPA_PM25_BREAKPOINTS, EPA_PM10_BREAKPOINTS, EPA_O3_BREAKPOINTS,
       EPA_CO_BREAKPOINTS, EPA_NO2_BREAKPOINTS, EPA_SO2_BREAKPOINTS,
       NAQI_PM25_BREAKPOINTS, NAQI_PM10_BREAKPOINTS, NAQI_O3_BREAKPOINTS,
       NAQI_CO_BREAKPOINTS, NAQI_NO2_BREAKPOINTS, NAQI_SO2_BREAKPOINTS,
       NAQI_NH3_BREAKPOINTS, List.mem_cons, List.not_mem_nil, or_false] at hb
     rcases hb with rfl|hb <;> try rcases hb with rfl|hb <;> try rcases hb with rfl|hb
     all_goals try rcases hb with rfl|rfl|rfl
     all_goals norm_num [bracketOK])

theorem interpolate_mem {b : Breakpoint} {c : ℚ} (hlo : b.c_low ≤ c) (hhi : c ≤ b.c_high)
    (hcl : b.c_low < b.c_high) (hil : b.i_low ≤ b.i_high) :
    (b.i_low : ℚ) ≤ interpolate_aqi c b ∧ interpolate_aqi c b ≤ (b.i_high : ℚ) := by
  unfold interpolate_aqi
  have hden : (0:ℚ) < b.c_high - b.c_low := by linarith
  have hil' : (b.i_low : ℚ) ≤ (b.i_high : ℚ) := by exact_mod_cast hil
  have hslope : 0 ≤ ((b.i_high : ℚ) - (b.i_low : ℚ)) / (b.c_high - b.c_low) :=
    div_nonneg (by linarith) (le_of_lt hden)
  constructor
  · have := mul_nonneg hslope (show (0:ℚ) ≤ c - b.c_low by linarith)
    linarith
  · have key : ((b.i_high : ℚ) - (b.i_low : ℚ)) / (b.c_high - b.c_low) * (c - b.c_low) ≤
        ((b.i_high : ℚ) - (b.i_low : ℚ)) / (b.c_high - b.c_low) * (b.c_high - b.c_low) :=
      mul_le_mul_of_nonneg_left (by linarith) hslope
    rw [div_mul_cancel₀ _ (ne_of_gt hden)] at key
    linarith

theorem interpolate_mono {b : Breakpoint} {c1 c2 : ℚ} (h12 : c1 ≤ c2)
    (hcl : b.c_low < b.c_high) (hil : b.i_low ≤ b.i_high) :
    interpolate_aqi c1 b ≤ interpolate_aqi c2 b := by
  unfold interpolate_aqi
  have hden : (0:ℚ) < b.c_high - b.c_low := by linarith
  have hil' : (b.i_low : ℚ) ≤ (b.i_high : ℚ) := by exact_mod_cast hil
  have hslope : 0 ≤ ((b.i_high : ℚ) - (b.i_low : ℚ)) / (b.c_high - b.c_low) :=
    div_nonneg (by linarith) (le_of_lt hden)
  have := mul_le_mul_of_nonneg_left (show c1 - b.c_low ≤ c2 - b.c_low by linarith) hslope
  linarith

theorem pyRound_interpolate_mem {b : Breakpoint} {c : ℚ} (hlo : b.c_low ≤ c) (hhi : c ≤ b.c_high)
    (hcl : b.c_low < b.c_high) (hil : b.i_low ≤ b.i_high) :
    b.i_low ≤ pyRound (interpolate_aqi c b) ∧ pyRound (interpolate_aqi c b) ≤ b.i_high :=
  ⟨le_pyRound_of_le (interpolate_mem hlo hhi hcl hil).1,
   pyRound_le_of_le (interpolate_mem hlo hhi hcl hil).2⟩

theorem scanBrackets_eq_500 {c : ℚ} :
    ∀ {T : List Breakpoint}, (∀ b ∈ T, ¬(b.c_low ≤ c ∧ c ≤ b.c_high)) → scanBrackets c T = 500
  | [], _ => rfl
  | b :: rest, h => by
    rw [scanBrackets, if_neg (h b (List.mem_cons_self b rest))]
    exact scanBrackets_eq_500 fun b' hb' => h b' (List.mem_cons_of_mem b hb')

theorem scanBrackets_bounds {c : ℚ} :
    ∀ {T : List Breakpoint}, (∀ b ∈ T, bracketOK b) →
      0 ≤ scanBrackets c T ∧ scanBrackets c T ≤ 500
  | [], _ => by norm_num [scanBrackets]
  | b :: rest, h => by
    rw [scanBrackets]
    split_ifs with hc
    · obtain ⟨_, h2, h3, h4, h5⟩ := h b (List.mem_cons_self b rest)
      have := pyRound_interpolate_mem hc.1 hc.2 h2 h4
      omega
    · exact scanBrackets_bounds fun b' hb' => h b' (List.mem_cons_of_mem b hb')

theorem scanBrackets_lb {c : ℚ} (m : ℤ) :
    ∀ {T : List Breakpoint}, (∀ b ∈ T, bracketOK b) → (∀ b ∈ T, m ≤ b.i_low) → m ≤ 500 →
      m ≤ scanBrackets c T
  | [], _, _, h500 => by rw [scanBrackets]; exact h500
  | b :: rest, hOK, hm, h500 => by
    rw [scanBrackets]
    split_ifs with hc
    · obtain ⟨_, h2, h3, h4, h5⟩ := hOK b (List.mem_cons_self b rest)
      have := (pyRound_interpolate_mem hc.1 hc.2 h2 h4).1
      have := hm b (List.mem_cons_self b rest)
      omega
    · exact scanBrackets_lb m (fun b' hb' => hOK b' (List.mem_cons_of_mem b hb'))
        (fun b' hb' => hm b' (List.mem_cons_of_mem b hb')) h500

theorem scanBrackets_first {c : ℚ} {b : Breakpoint} :
    ∀ {T : List Breakpoint}, List.Pairwise brRel T → b ∈ T →
      b.c_low ≤ c → c ≤ b.c_high →
      scanBrackets c T = pyRound (interpolate_aqi c b)
  | [], _, hb, _, _ => absurd hb (List.not_mem_nil b)
  | hd :: rest, hpw, hb, h1, h2 => by
    rcases List.mem_cons.mp hb with rfl | hb'
    · rw [scanBrackets, if_pos ⟨h1, h2⟩]
    · have hrel : brRel hd b := (List.pairwise_cons.mp hpw).1 b hb'
      rw [scanBrackets, if_neg (by intro hcontra; exact absurd hcontra.2 (by linarith [hrel.1]))]
      exact scanBrackets_first (List.pairwise_cons.mp hpw).2 hb' h1 h2

theorem scanBrackets_mono {c1 c2 : ℚ} (h12 : c1 ≤ c2) :
    ∀ {T : List Breakpoint}, List.Pairwise brRel T → (∀ b ∈ T, bracketOK b) →
      (∃ b ∈ T, b.c_low ≤ c1 ∧ c1 ≤ b.c_high) →
      scanBrackets c1 T ≤ scanBrackets c2 T
  | [], _, _, hex => absurd hex (by simp)
  | hd :: rest, hpw, hOK, hex => by
    obtain ⟨hhd, hpw'⟩ := List.pairwise_cons.mp hpw
    obtain ⟨_, hcl, _, hil, hih⟩ := hOK hd (List.mem_cons_self hd rest)
    simp only [scanBrackets]
    by_cases hc1 : hd.c_low ≤ c1 ∧ c1 ≤ hd.c_high
    · rw [if_pos hc1]
      by_cases hc2 : hd.c_low ≤ c2 ∧ c2 ≤ hd.c_high
      · rw [if_pos hc2]
        exact pyRound_mono (interpolate_mono h12 hcl hil)
      · rw [if_neg hc2]
        have hub := (pyRound_interpolate_mem hc1.1 hc1.2 hcl hil).2
        have hlb := scanBrackets_lb (c := c2) hd.i_high
          (fun b' hb' => hOK b' (List.mem_cons_of_mem hd hb'))
          (fun b' hb' => (hhd b' hb').2) hih
        omega
    · obtain ⟨b, hbmem, hb1, hb2⟩ := hex
      rcases List.mem_cons.mp hbmem with rfl | hbrest
      · exact absurd ⟨hb1, hb2⟩ hc1
      · have hgt : hd.c_high < c1 := lt_of_lt_of_le (hhd b hbrest).1 hb1
        rw [if_neg hc1, if_neg (fun h => absurd h.2 (by linarith))]
        exact scanBrackets_mono h12 hpw'
          (fun b' hb' => hOK b' (List.mem_cons_of_mem hd hb')) ⟨b, hbrest, hb1, hb2⟩

theorem le_lastCHigh :
    ∀ {T : List Breakpoint}, List.Pairwise brRel T → (∀ b ∈ T, bracketOK b) →
      ∀ b ∈ T, b.c_high ≤ lastCHigh T
  | [], _, _, b, hb => absurd hb (List.not_mem_nil b)
  | [b'], _, _, b, hb => by
    rcases List.mem_cons.mp hb with rfl | h
    · exact le_refl _
    · exact absurd h (List.not_mem_nil b)
  | hd :: next :: rest, hpw, hOK, b, hb => by
    obtain ⟨hhd, hpw'⟩ := List.pairwise_cons.mp hpw
    have hrec := le_lastCHigh hpw' (fun b' hb' => hOK b' (List.mem_cons_of_mem hd hb'))
    rcases List.mem_cons.mp hb with rfl | hbrest
    · have h1 : b.c_high < next.c_low := (hhd next (List.mem_cons_self next rest)).1
      have h2 : next.c_low < next.c_high :=
        (hOK next (List.mem_cons_of_mem b (List.mem_cons_self next rest))).2.1
      have h3 := hrec next (List.mem_cons_self next rest)
      show b.c_high ≤ lastCHigh (next :: rest)
      linarith
    · exact hrec b hbrest

theorem calculate_aqi_for_pollutant_bounds {T : List Breakpoint}
    (hOK : ∀ b ∈ T, bracketOK b) (c : ℚ) :
    0 ≤ calculate_aqi_for_pollutant c T ∧ calculate_aqi_for_pollutant c T ≤ 500 := by
  unfold calculate_aqi_for_pollutant
  split_ifs
  · omega
  · exact scanBrackets_bounds hOK

theorem calculate_aqi_for_pollutant_above_top {T : List Breakpoint} {c : ℚ}
    (hpw : List.Pairwise brRel T) (hOK : ∀ b ∈ T, bracketOK b)
    (hc : lastCHigh T < c) (hc0 : 0 ≤ c) :
    calculate_aqi_for_pollutant c T = 500 := by
  unfold calculate_aqi_for_pollutant
  rw [if_neg (by linarith)]
  exact scanBrackets_eq_500 fun b hb => by
    have := le_lastCHigh hpw hOK b hb
    intro hcontra
    linarith [hcontra.2]

theorem scanInvert_eq_none_of_lt {aqi : ℚ} :
    ∀ {T : List Breakpoint}, (∀ b ∈ T, aqi < (b.i_low : ℚ)) → scanInvert aqi T = none
  | [], _ => rfl
  | b :: rest, h => by
    rw [scanInvert, if_neg (fun hc => absurd hc.1 (not_le.mpr (h b (List.mem_cons_self b rest))))]
    exact scanInvert_eq_none_of_lt fun b' hb' => h b' (List.mem_cons_of_mem b hb')

theorem scanInvert_isSome {i : ℤ} :
    ∀ {T : List Breakpoint}, (∀ b ∈ T, b.i_low ≤ b.i_high) → intCov T →
      headILow T ≤ i → i ≤ lastIHigh T → T ≠ [] →
      (scanInvert (i : ℚ) T).isSome
  | [], _, _, _, _, hne => absurd rfl hne
  | [b], _, _, h1, h2, _ => by
    rw [scanInvert, if_pos ⟨by exact_mod_cast h1, by exact_mod_cast h2⟩]
    rfl
  | b :: b' :: rest, hball, hcov, h1, h2, _ => by
    rw [scanInvert]
    by_cases hle : i ≤ b.i_high
    · rw [if_pos ⟨by exact_mod_cast h1, by exact_mod_cast hle⟩]
      rfl
    · push_neg at hle
      rw [if_neg (fun hc => absurd hc.2 (by push_neg; exact_mod_cast hle))]
      have hh : headILow (b' :: rest) = b'.i_low := rfl
      have hl : lastIHigh (b :: b' :: rest) = lastIHigh (b' :: rest) := rfl
      exact scanInvert_isSome
        (fun x hx => hball x (List.mem_cons_of_mem b hx))
        hcov.2 (by rw [hh]; have := hcov.1; omega) (by rw [← hl]; exact h2) (by simp)

theorem inv_helper {p : String} {T : List Breakpoint} {bl : Breakpoint}
    (hp : EPA_BREAKPOINTS p = some T)
    (hball : ∀ b ∈ T, 0 ≤ b.i_low ∧ b.i_low ≤ b.i_high) (hcov : intCov T)
    (hlast : T.getLast? = some bl) (hhead : headILow T = 0) (hli : lastIHigh T = bl.i_high)
    (i : ℤ) :
    (0 ≤ i → i ≤ 500 → (epa_aqi_to_concentration (i : ℚ) p).isSome) ∧
    (epa_aqi_to_concentration (i : ℚ) p = none ↔ ∀ b ∈ T, (i : ℚ) < (b.i_low : ℚ)) := by
  have hne : T ≠ [] := by intro h; rw [h] at hlast; simp at hlast
  have hsome : ∀ c, scanInvert (i : ℚ) T = some c →
      epa_aqi_to_concentration (i : ℚ) p = some c := by
    intro c hs
    simp [epa_aqi_to_concentration, hp, hs]
  have hnone : scanInvert (i : ℚ) T = none →
      epa_aqi_to_concentration (i : ℚ) p =
        (if (bl.i_high : ℚ) < (i : ℚ) then some (round2 (invert_interpolate (i : ℚ) bl))
         else none) := by
    intro hs
    simp [epa_aqi_to_concentration, hp, hs, hlast]
  have htot : 0 ≤ i → (epa_aqi_to_concentration (i : ℚ) p).isSome := by
    intro h0
    by_cases hle : i ≤ lastIHigh T
    · have hs := scanInvert_isSome (fun b hb => (hball b hb).2) hcov
        (by rw [hhead]; exact h0) hle hne
      obtain ⟨c, hc⟩ := Option.isSome_iff_exists.mp hs
      rw [hsome c hc]
      rfl
    · push_neg at hle
      rw [hli] at hle
      cases hs : scanInvert (i : ℚ) T with
      | some c => rw [hsome c hs]; rfl
      | none =>
        rw [hnone hs, if_pos (by exact_mod_cast hle)]
        rfl
  refine ⟨fun h0 _ => htot h0, ?_, ?_⟩
  · intro hn
    have hineg : i < 0 := by
      by_contra h0
      push_neg at h0
      have := htot h0
      rw [hn] at this
      simp at this
    intro b hb
    have h1 : (0 : ℤ) ≤ b.i_low := (hball b hb).1
    have h2 : ((i : ℚ)) < 0 := by exact_mod_cast hineg
    have h3 : (0 : ℚ) ≤ (b.i_low : ℚ) := by exact_mod_cast h1
    linarith
  · intro hb2
    have hs : scanInvert (i : ℚ) T = none := scanInvert_eq_none_of_lt hb2
    have hblmem : bl ∈ T := by
      obtain ⟨h, heq⟩ := List.mem_getLast?_eq_getLast (Option.mem_def.mpr hlast)
      rw [heq]
      exact List.getLast_mem h
    have h1 := hb2 bl hblmem
    have h2 : (bl.i_low : ℚ) ≤ (bl.i_high : ℚ) := by exact_mod_cast (hball bl hblmem).2
    rw [hnone hs, if_neg (by push_neg; linarith)]

/-- C1 fails as stated: the EPA PM2.5 table has a gap between 9.0 and 9.1, a
concentration inside the gap matches no bracket and yields 500, while 9.1
yields 51, so `compute_index` is not monotone in concentration. -/
theorem claim_C1_counterexample :
    EPA_PM25_BREAKPOINTS ∈ allTables ∧ (905/100 : ℚ) ≤ 91/10 ∧
    calculate_aqi_for_pollutant (905/100) EPA_PM25_BREAKPOINTS = 500 ∧
    calculate_aqi_for_pollutant (91/10) EPA_PM25_BREAKPOINTS = 51 ∧
    ¬(calculate_aqi_for_pollutant (905/100) EPA_PM25_BREAKPOINTS ≤
      calculate_aqi_for_pollutant (91/10) EPA_PM25_BREAKPOINTS) := by
  have h1 : calculate_aqi_for_pollutant (905/100) EPA_PM25_BREAKPOINTS = 500 := by
    unfold calculate_aqi_for_pollutant EPA_PM25_BREAKPOINTS
    rw [if_neg (by norm_num)]
    simp only [scanBrackets]
    norm_num [interpolate_aqi]
  have h2 : calculate_aqi_for_pollutant (91/10) EPA_PM25_BREAKPOINTS = 51 := by
    unfold calculate_aqi_for_pollutant EPA_PM25_BREAKPOINTS
    rw [if_neg (by norm_num)]
    simp only [scanBrackets]
    norm_num [interpolate_aqi]
    exact pyRound_eq_of (by norm_num) (by norm_num)
  exact ⟨by simp [allTables], by norm_num, h1, h2, by rw [h1, h2]; norm_num⟩

/-- C1 (amended): for every breakpoint table of both standards,
`compute_index` is monotonically non-decreasing in concentration as long as the
smaller concentration does not fall in one of the boundary gaps between
adjacent brackets — i.e. whenever it is negative, lies inside some bracket, or
exceeds the top bracket's upper bound. -/
theorem claim_C1_amended :
    ∀ T ∈ allTables, ∀ c1 c2 : ℚ, c1 ≤ c2 →
      (c1 < 0 ∨ (∃ b ∈ T, b.c_low ≤ c1 ∧ c1 ≤ b.c_high) ∨ lastCHigh T < c1) →
      calculate_aqi_for_pollutant c1 T ≤ calculate_aqi_for_pollutant c2 T := by
  intro T hT c1 c2 h12 hcase
  obtain ⟨hOK, hpw⟩ := allTables_ok T hT
  have hb2 := calculate_aqi_for_pollutant_bounds hOK c2
  rcases hcase with hneg | hex | htop
  · unfold calculate_aqi_for_pollutant at hb2 ⊢
    rw [if_pos hneg]
    exact hb2.1
  · have hc1 : 0 ≤ c1 := by
      obtain ⟨b, hb, hx1, _⟩ := hex
      have := (hOK b hb).1
      linarith
    unfold calculate_aqi_for_pollutant
    rw [if_neg (not_lt.mpr hc1), if_neg (not_lt.mpr (le_trans hc1 h12))]
    exact scanBrackets_mono h12 hpw hOK hex
  · by_cases hneg : c1 < 0
    · unfold calculate_aqi_for_pollutant at hb2 ⊢
      rw [if_pos hneg]
      exact hb2.1
    · push_neg at hneg
      unfold calculate_aqi_for_pollutant
      rw [if_neg (not_lt.mpr hneg), if_neg (not_lt.mpr (le_trans hneg h12))]
      have hs1 : scanBrackets c1 T = 500 := scanBrackets_eq_500 fun b hb hcon => by
        have := le_lastCHigh hpw hOK b hb
        linarith [hcon.2]
      have hs2 : scanBrackets c2 T = 500 := scanBrackets_eq_500 fun b hb hcon => by
        have := le_lastCHigh hpw hOK b hb
        linarith [hcon.2]
      rw [hs1, hs2]

/-- Witness for C1 (amended): concentrations 2 and 12 against the EPA PM2.5
table, 2 lying inside the first bracket. -/
theorem claim_C1_amended_witness :
    EPA_PM25_BREAKPOINTS ∈ allTables ∧ (2:ℚ) ≤ 12 ∧
    (∃ b ∈ EPA_PM25_BREAKPOINTS, b.c_low ≤ (2:ℚ) ∧ (2:ℚ) ≤ b.c_high) ∧
    calculate_aqi_for_pollutant 2 EPA_PM25_BREAKPOINTS ≤
      calculate_aqi_for_pollutant 12 EPA_PM25_BREAKPOINTS := by
  have hmem : EPA_PM25_BREAKPOINTS ∈ allTables := by simp [allTables]
  have hex : ∃ b ∈ EPA_PM25_BREAKPOINTS, b.c_low ≤ (2:ℚ) ∧ (2:ℚ) ≤ b.c_high :=
    ⟨⟨0.0, 9.0, 0, 50⟩, by simp [EPA_PM25_BREAKPOINTS], by norm_num, by norm_num⟩
  exact ⟨hmem, by norm_num, hex,
    claim_C1_amended EPA_PM25_BREAKPOINTS hmem 2 12 (by norm_num) (Or.inr (Or.inl hex))⟩

/-- C2: for every breakpoint table of both standards and every concentration,
the sub-index lies in `[0, 500]`; above the top bracket's upper concentration
bound it is exactly 500 (clamped, not extrapolated); for a negative
concentration it is exactly 0. -/
theorem claim_C2 :
    ∀ T ∈ allTables, ∀ c : ℚ,
      (0 ≤ calculate_aqi_for_pollutant c T ∧ calculate_aqi_for_pollutant c T ≤ 500) ∧
      (lastCHigh T < c → calculate_aqi_for_pollutant c T = 500) ∧
      (c < 0 → calculate_aqi_for_pollutant c T = 0) := by
  intro T hT c
  obtain ⟨hOK, hpw⟩ := allTables_ok T hT
  have hpos : 0 < lastCHigh T := by
    simp only [allTables, List.mem_cons, List.not_mem_nil, or_false] at hT
    rcases hT with rfl|rfl|rfl|rfl|rfl|rfl|rfl|rfl|rfl|rfl|rfl|rfl|rfl <;>
      norm_num [lastCHigh, EPA_PM25_BREAKPOINTS, EPA_PM10_BREAKPOINTS, EPA_O3_BREAKPOINTS,
        EPA_CO_BREAKPOINTS, EPA_NO2_BREAKPOINTS, EPA_SO2_BREAKPOINTS,
        NAQI_PM25_BREAKPOINTS, NAQI_PM10_BREAKPOINTS, NAQI_O3_BREAKPOINTS,
        NAQI_CO_BREAKPOINTS, NAQI_NO2_BREAKPOINTS, NAQI_SO2_BREAKPOINTS,
        NAQI_NH3_BREAKPOINTS]
  refine ⟨calculate_aqi_for_pollutant_bounds hOK c, fun hc => ?_, fun hc => ?_⟩
  · exact calculate_aqi_for_pollutant_above_top hpw hOK hc (by linarith)
  · unfold calculate_aqi_for_pollutant
    rw [if_pos hc]

/-- Witness for C2: the EPA PM2.5 table at concentrations 1000 (above the top
bracket) and -5 (negative). -/
theorem claim_C2_witness :
    EPA_PM25_BREAKPOINTS ∈ allTables ∧
    lastCHigh EPA_PM25_BREAKPOINTS < 1000 ∧
    calculate_aqi_for_pollutant 1000 EPA_PM25_BREAKPOINTS = 500 ∧
    ((-5 : ℚ) < 0) ∧
    calculate_aqi_for_pollutant (-5) EPA_PM25_BREAKPOINTS = 0 := by
  have hmem : EPA_PM25_BREAKPOINTS ∈ allTables := by simp [allTables]
  have htop : lastCHigh EPA_PM25_BREAKPOINTS < 1000 := by
    norm_num [lastCHigh, EPA_PM25_BREAKPOINTS]
  exact ⟨hmem, htop, (claim_C2 EPA_PM25_BREAKPOINTS hmem 1000).2.1 htop,
    by norm_num, (claim_C2 EPA_PM25_BREAKPOINTS hmem (-5)).2.2 (by norm_num)⟩

/-- C7: brackets are scanned in ascending order and the first bracket with
`c_low <= concentration <= c_high` wins, so a concentration exactly at a
bracket's upper boundary yields that bracket's interpolated value, which is
exactly `i_high`; in particular EPA PM2.5 at 9.0 yields 50 and at 9.1 yields
51. -/
theorem claim_C7 :
    (∀ T : List Breakpoint, List.Pairwise brRel T → ∀ b ∈ T,
      0 ≤ b.c_low → b.c_low < b.c_high →
      calculate_aqi_for_pollutant b.c_high T = b.i_high) ∧
    calculate_aqi_for_pollutant 9 EPA_PM25_BREAKPOINTS = 50 ∧
    calculate_aqi_for_pollutant (9.1 : ℚ) EPA_PM25_BREAKPOINTS = 51 := by
  refine ⟨fun T hpw b hb h0 hcl => ?_, ?_, ?_⟩
  · unfold calculate_aqi_for_pollutant
    rw [if_neg (not_lt.mpr (by linarith))]
    rw [scanBrackets_first hpw hb (le_of_lt hcl) (le_refl _)]
    have hv : interpolate_aqi b.c_high b = (b.i_high : ℚ) := by
      unfold interpolate_aqi
      rw [div_mul_cancel₀ _ (ne_of_gt (show (0:ℚ) < b.c_high - b.c_low by linarith))]
      ring
    rw [hv]
    exact pyRound_intCast _
  · unfold calculate_aqi_for_pollutant EPA_PM25_BREAKPOINTS
    rw [if_neg (by norm_num)]
    simp only [scanBrackets]
    norm_num [interpolate_aqi]
    exact pyRound_eq_of (by norm_num) (by norm_num)
  · unfold calculate_aqi_for_pollutant EPA_PM25_BREAKPOINTS
    rw [if_neg (by norm_num)]
    simp only [scanBrackets]
    norm_num [interpolate_aqi]
    exact pyRound_eq_of (by norm_num) (by norm_num)

/-- Witness for C7: the second EPA PM2.5 bracket at its upper boundary 35.4
yields exactly its `i_high` of 100. -/
theorem claim_C7_witness :
    List.Pairwise brRel EPA_PM25_BREAKPOINTS ∧
    (⟨9.1, 35.4, 51, 100⟩ : Breakpoint) ∈ EPA_PM25_BREAKPOINTS ∧
    calculate_aqi_for_pollutant (35.4 : ℚ) EPA_PM25_BREAKPOINTS = 100 := by
  have hpw : List.Pairwise brRel EPA_PM25_BREAKPOINTS :=
    (allTables_ok EPA_PM25_BREAKPOINTS (by simp [allTables])).2
  have hmem : (⟨9.1, 35.4, 51, 100⟩ : Breakpoint) ∈ EPA_PM25_BREAKPOINTS := by
    simp [EPA_PM25_BREAKPOINTS]
  exact ⟨hpw, hmem,
    claim_C7.1 EPA_PM25_BREAKPOINTS hpw ⟨9.1, 35.4, 51, 100⟩ hmem (by norm_num) (by norm_num)⟩

/-- C10: a non-negative concentration strictly between one bracket's `c_high`
and the next bracket's `c_low` (a boundary gap) matches no bracket and yields
500, the same value as concentrations above the top bracket. -/
theorem claim_C10 :
    ∀ T ∈ allTables, ∀ (k : ℕ) (hk : k + 1 < T.length), ∀ c : ℚ, 0 ≤ c →
      (T.get ⟨k, by omega⟩).c_high < c → c < (T.get ⟨k + 1, hk⟩).c_low →
      calculate_aqi_for_pollutant c T = 500 := by
  intro T hT k hk c h0 hlo hhi
  obtain ⟨hOK, hpw⟩ := allTables_ok T hT
  have hget := List.pairwise_iff_get.mp hpw
  unfold calculate_aqi_for_pollutant
  rw [if_neg (not_lt.mpr h0)]
  apply scanBrackets_eq_500
  intro b hb hcon
  obtain ⟨j, hj⟩ := List.mem_iff_get.mp hb
  rcases lt_trichotomy j.val k with hjk | hjk | hjk
  · have hrel := hget j ⟨k, by omega⟩ (by simpa using hjk)
    have hok := (hOK (T.get ⟨k, by omega⟩) (T.get_mem _ _)).2.1
    rw [← hj] at hcon
    have := hcon.2
    simp only [brRel] at hrel
    linarith [hrel.1]
  · rw [← hj] at hcon
    have := hcon.2
    have hjeq : j = (⟨k, by omega⟩ : Fin T.length) := Fin.ext hjk
    rw [hjeq] at this
    linarith
  · rcases Nat.lt_or_ge (k + 1) j.val with hjk2 | hjk2
    · have hrel := hget ⟨k + 1, hk⟩ j (by simpa using hjk2)
      have hok := (hOK (T.get ⟨k + 1, hk⟩) (T.get_mem _ _)).2.1
      rw [← hj] at hcon
      have := hcon.1
      simp only [brRel] at hrel
      linarith [hrel.1]
    · have hjeq : j = (⟨k + 1, hk⟩ : Fin T.length) := Fin.ext (show j.val = k + 1 by omega)
      rw [← hj, hjeq] at hcon
      linarith [hcon.1]

/-- Witness for C10: 9.05 lies in the gap between the first two EPA PM2.5
brackets and yields 500. -/
theorem claim_C10_witness :
    EPA_PM25_BREAKPOINTS ∈ allTables ∧
    (0 : ℚ) ≤ 905/100 ∧
    (EPA_PM25_BREAKPOINTS.get ⟨0, by norm_num [EPA_PM25_BREAKPOINTS]⟩).c_high < 905/100 ∧
    (905/100 : ℚ) < (EPA_PM25_BREAKPOINTS.get ⟨1, by norm_num [EPA_PM25_BREAKPOINTS]⟩).c_low ∧
    calculate_aqi_for_pollutant (905/100) EPA_PM25_BREAKPOINTS = 500 := by
  have hmem : EPA_PM25_BREAKPOINTS ∈ allTables := by simp [allTables]
  have h1 : (EPA_PM25_BREAKPOINTS.get ⟨0, by norm_num [EPA_PM25_BREAKPOINTS]⟩).c_high <
      (905/100 : ℚ) := by norm_num [EPA_PM25_BREAKPOINTS]
  have h2 : (905/100 : ℚ) <
      (EPA_PM25_BREAKPOINTS.get ⟨1, by norm_num [EPA_PM25_BREAKPOINTS]⟩).c_low := by
    norm_num [EPA_PM25_BREAKPOINTS]
  exact ⟨hmem, by norm_num, h1, h2,
    claim_C10 EPA_PM25_BREAKPOINTS hmem 0 (by norm_num [EPA_PM25_BREAKPOINTS]) (905/100)
      (by norm_num) h1 h2⟩

/-- C3 fails as stated for non-integer index values, which the float-typed
`epa_aqi_to_concentration` admits: 50.5 lies in `[0, 500]` and is not below
every bracket, yet it falls in the integer gap between the first bracket's
`i_high = 50` and the second bracket's `i_low = 51`, so the function returns
`None`. -/
theorem claim_C3_counterexample :
    (0 : ℚ) ≤ 101/2 ∧ (101/2 : ℚ) ≤ 500 ∧
    epa_aqi_to_concentration (101/2) "pm25" = none ∧
    ¬(∀ b ∈ EPA_PM25_BREAKPOINTS, (101/2 : ℚ) < (b.i_low : ℚ)) := by
  refine ⟨by norm_num, by norm_num, ?_, ?_⟩
  · norm_num [epa_aqi_to_concentration, EPA_BREAKPOINTS, EPA_PM25_BREAKPOINTS, scanInvert]
  · intro h
    have := h ⟨0.0, 9.0, 0, 50⟩ (by simp [EPA_PM25_BREAKPOINTS])
    norm_num at this

/-- C3 (amended): for every EPA pollutant with a breakpoint table and every
integer index in `[0, 500]`, `epa_aqi_to_concentration` returns a
concentration; for integer indices it returns `None` exactly when the index is
below every bracket (for non-integer indices it can also return `None` inside
the one-unit gaps between adjacent index ranges, e.g. at 50.5). -/
theorem claim_C3_amended :
    ∀ (p : String) (T : List Breakpoint), EPA_BREAKPOINTS p = some T →
      ∀ i : ℤ,
        (0 ≤ i → i ≤ 500 → (epa_aqi_to_concentration (i : ℚ) p).isSome) ∧
        (epa_aqi_to_concentration (i : ℚ) p = none ↔ ∀ b ∈ T, (i : ℚ) < (b.i_low : ℚ)) := by
  intro p T hp i
  unfold EPA_BREAKPOINTS at hp
  split_ifs at hp with h1 h2 h3 h4 h5 h6
  · subst h1
    obtain rfl : EPA_PM25_BREAKPOINTS = T := Option.some.inj hp
    refine inv_helper (by simp [EPA_BREAKPOINTS]) ?_
      (by norm_num [intCov, EPA_PM25_BREAKPOINTS])
      (show EPA_PM25_BREAKPOINTS.getLast? = some (⟨225.5, 325.4, 301, 500⟩ : Breakpoint) from rfl) rfl rfl i
    intro b hb
    simp only [EPA_PM25_BREAKPOINTS, List.mem_cons, List.not_mem_nil, or_false] at hb
    rcases hb with rfl|rfl|rfl|rfl|rfl|rfl <;> norm_num
  · subst h2
    obtain rfl : EPA_PM10_BREAKPOINTS = T := Option.some.inj hp
    refine inv_helper (by simp [EPA_BREAKPOINTS]) ?_
      (by norm_num [intCov, EPA_PM10_BREAKPOINTS])
      (show EPA_PM10_BREAKPOINTS.getLast? = some (⟨425, 604, 301, 500⟩ : Breakpoint) from rfl) rfl rfl i
    intro b hb
    simp only [EPA_PM10_BREAKPOINTS, List.mem_cons, List.not_mem_nil, or_false] at hb
    rcases hb with rfl|rfl|rfl|rfl|rfl|rfl <;> norm_num
  · subst h3
    obtain rfl : EPA_O3_BREAKPOINTS = T := Option.some.inj hp
    refine inv_helper (by simp [EPA_BREAKPOINTS]) ?_
      (by norm_num [intCov, EPA_O3_BREAKPOINTS])
      (show EPA_O3_BREAKPOINTS.getLast? = some (⟨0.106, 0.200, 201, 300⟩ : Breakpoint) from rfl) rfl rfl i
    intro b hb
    simp only [EPA_O3_BREAKPOINTS, List.mem_cons, List.not_mem_nil, or_false] at hb
    rcases hb with rfl|rfl|rfl|rfl|rfl <;> norm_num
  · subst h4
    obtain rfl : EPA_CO_BREAKPOINTS = T := Option.some.inj hp
    refine inv_helper (by simp [EPA_BREAKPOINTS]) ?_
      (by norm_num [intCov, EPA_CO_BREAKPOINTS])
      (show EPA_CO_BREAKPOINTS.getLast? = some (⟨30.5, 50.4, 301, 500⟩ : Breakpoint) from rfl) rfl rfl i
    intro b hb
    simp only [EPA_CO_BREAKPOINTS, List.mem_cons, List.not_mem_nil, or_false] at hb
    rcases hb with rfl|rfl|rfl|rfl|rfl|rfl <;> norm_num
  · subst h5
    obtain rfl : EPA_NO2_BREAKPOINTS = T := Option.some.inj hp
    refine inv_helper (by simp [EPA_BREAKPOINTS]) ?_
      (by norm_num [intCov, EPA_NO2_BREAKPOINTS])
      (show EPA_NO2_BREAKPOINTS.getLast? = some (⟨1250, 2049, 301, 500⟩ : Breakpoint) from rfl) rfl rfl i
    intro b hb
    simp only [EPA_NO2_BREAKPOINTS, List.mem_cons, List.not_mem_nil, or_false] at hb
    rcases hb with rfl|rfl|rfl|rfl|rfl|rfl <;> norm_num
  · subst h6
    obtain rfl : EPA_SO2_BREAKPOINTS = T := Option.some.inj hp
    refine inv_helper (by simp [EPA_BREAKPOINTS]) ?_
      (by norm_num [intCov, EPA_SO2_BREAKPOINTS])
      (show EPA_SO2_BREAKPOINTS.getLast? = some (⟨605, 1004, 301, 500⟩ : Breakpoint) from rfl) rfl rfl i
    intro b hb
    simp only [EPA_SO2_BREAKPOINTS, List.mem_cons, List.not_mem_nil, or_false] at hb
    rcases hb with rfl|rfl|rfl|rfl|rfl|rfl <;> norm_num

/-- Witness for C3 (amended): pollutant pm25 at integer index 150. -/
theorem claim_C3_amended_witness :
    EPA_BREAKPOINTS "pm25" = some EPA_PM25_BREAKPOINTS ∧
    (0 : ℤ) ≤ 150 ∧ (150 : ℤ) ≤ 500 ∧
    (epa_aqi_to_concentration ((150 : ℤ) : ℚ) "pm25").isSome := by
  have hp : EPA_BREAKPOINTS "pm25" = some EPA_PM25_BREAKPOINTS := by simp [EPA_BREAKPOINTS]
  exact ⟨hp, by norm_num, by norm_num,
    (claim_C3_amended "pm25" EPA_PM25_BREAKPOINTS hp 150).1 (by norm_num) (by norm_num)⟩

theorem scanCategories_first {i : ℤ} :
    ∀ {cats : List (ℤ × String × String × String)} (k : ℕ) (hk : k < cats.length),
      i ≤ (cats.get ⟨k, hk⟩).1 →
      (∀ (j : ℕ) (hj : j < cats.length), j < k → (cats.get ⟨j, hj⟩).1 < i) →
      scanCategories i cats =
        some ((cats.get ⟨k, hk⟩).2.1, (cats.get ⟨k, hk⟩).2.2.1, (cats.get ⟨k, hk⟩).2.2.2)
  | [], k, hk, _, _ => absurd hk (by simp)
  | c :: rest, 0, hk, hle, _ => by
    obtain ⟨t, cat, col, msg⟩ := c
    rw [scanCategories]
    exact if_pos (show i ≤ t from hle)
  | c :: rest, k + 1, hk, hle, hfirst => by
    obtain ⟨t, cat, col, msg⟩ := c
    have ht : t < i := hfirst 0 (by simp) (by omega)
    rw [scanCategories, if_neg (by omega)]
    exact scanCategories_first k (by simp only [List.length_cons] at hk; omega) hle
      fun j hj hjk => hfirst (j + 1) (by simp only [List.length_cons]; omega) (by omega)

theorem scanCategories_eq_none {i : ℤ} :
    ∀ {cats : List (ℤ × String × String × String)}, (∀ e ∈ cats, e.1 < i) →
      scanCategories i cats = none
  | [], _ => rfl
  | c :: rest, h => by
    obtain ⟨t, cat, col, msg⟩ := c
    rw [scanCategories,
      if_neg (show ¬(i ≤ t) from not_le.mpr (h _ (List.mem_cons_self _ _)))]
    exact scanCategories_eq_none fun e he => h e (List.mem_cons_of_mem _ he)

/-- C8: for every index and standard, the categorizer returns the first entry
of the standard's category table whose threshold is at least the index, and the
last entry when the index exceeds 500, so it is total; in particular EPA index
50 is "Good" and 51 is "Moderate". -/
theorem claim_C8 :
    (∀ (i : ℤ) (std : AQIStandard) (k : ℕ) (hk : k < (categoriesOf std).length),
      0 ≤ i →
      i ≤ ((categoriesOf std).get ⟨k, hk⟩).1 →
      (∀ (j : ℕ) (hj : j < (categoriesOf std).length), j < k →
        ((categoriesOf std).get ⟨j, hj⟩).1 < i) →
      get_aqi_category i std =
        (((categoriesOf std).get ⟨k, hk⟩).2.1, ((categoriesOf std).get ⟨k, hk⟩).2.2.1,
         ((categoriesOf std).get ⟨k, hk⟩).2.2.2)) ∧
    (∀ (i : ℤ) (std : AQIStandard), 500 < i →
      get_aqi_category i std = lastCategory (categoriesOf std)) ∧
    get_aqi_category 50 AQIStandard.EPA = ("Good", "#00e400",
      "Air quality is satisfactory, and air pollution poses little or no risk.") ∧
    get_aqi_category 51 AQIStandard.EPA = ("Moderate", "#ffff00",
      "Air quality is acceptable. However, there may be a risk for some people, particularly those who are unusually sensitive to air pollution.") := by
  refine ⟨fun i std k hk h0 hle hfirst => ?_, fun i std h500 => ?_, ?_, ?_⟩
  · unfold get_aqi_category
    rw [scanCategories_first k hk hle hfirst]
  · have hnone : scanCategories i (categoriesOf std) = none := by
      apply scanCategories_eq_none
      intro e he
      rcases std
      · simp only [categoriesOf, reduceIte, EPA_CATEGORIES] at he
        fin_cases he <;> simp only [Prod.fst] <;> omega
      · simp only [categoriesOf, reduceIte, NAQI_CATEGORIES] at he
        fin_cases he <;> simp only [Prod.fst] <;> omega
    unfold get_aqi_category
    rw [hnone]
  · norm_num [get_aqi_category, categoriesOf, EPA_CATEGORIES, scanCategories]
  · norm_num [get_aqi_category, categoriesOf, EPA_CATEGORIES, scanCategories]

/-- Witness for C8: EPA index 50 selects entry 0 of the EPA table, and index
501 selects the last entry. -/
theorem claim_C8_witness :
    (0 : ℤ) ≤ 50 ∧
    (50 : ℤ) ≤ ((categoriesOf AQIStandard.EPA).get
      ⟨0, by norm_num [categoriesOf, EPA_CATEGORIES]⟩).1 ∧
    get_aqi_category 50 AQIStandard.EPA =
      (((categoriesOf AQIStandard.EPA).get ⟨0, by norm_num [categoriesOf, EPA_CATEGORIES]⟩).2.1,
       ((categoriesOf AQIStandard.EPA).get ⟨0, by norm_num [categoriesOf, EPA_CATEGORIES]⟩).2.2.1,
       ((categoriesOf AQIStandard.EPA).get
         ⟨0, by norm_num [categoriesOf, EPA_CATEGORIES]⟩).2.2.2) ∧
    (500 : ℤ) < 501 ∧
    get_aqi_category 501 AQIStandard.EPA = lastCategory (categoriesOf AQIStandard.EPA) := by
  refine ⟨by norm_num, ?_, ?_, by norm_num, ?_⟩
  · norm_num [categoriesOf, EPA_CATEGORIES]
  · exact claim_C8.1 50 AQIStandard.EPA 0 (by norm_num [categoriesOf, EPA_CATEGORIES])
      (by norm_num) (by norm_num [categoriesOf, EPA_CATEGORIES]) (by omega)
  · exact claim_C8.2.1 501 AQIStandard.EPA (by norm_num)

theorem scanInvert_first {a : ℚ} {b : Breakpoint} :
    ∀ {T : List Breakpoint}, List.Pairwise brRel T → b ∈ T →
      (b.i_low : ℚ) < a → a ≤ (b.i_high : ℚ) →
      scanInvert a T = some (round2 (invert_interpolate a b))
  | [], _, hb, _, _ => absurd hb (List.not_mem_nil b)
  | hd :: rest, hpw, hb, h1, h2 => by
    rcases List.mem_cons.mp hb with rfl | hb'
    · rw [scanInvert, if_pos ⟨le_of_lt h1, h2⟩]
    · obtain ⟨hhd, hpw'⟩ := List.pairwise_cons.mp hpw
      have hrel := hhd b hb'
      have hlt : (hd.i_high : ℚ) < a := by
        have hcast : (hd.i_high : ℚ) ≤ (b.i_low : ℚ) := by exact_mod_cast hrel.2
        linarith
      rw [scanInvert, if_neg (fun hc => absurd hc.2 (not_le.mpr hlt))]
      exact scanInvert_first hpw' hb' h1 h2

theorem epa_aqi_eq_of_scan {p : String} {T : List Breakpoint} {c : ℚ} {a : ℚ}
    (hp : EPA_BREAKPOINTS p = some T) (hs : scanInvert a T = some c) :
    epa_aqi_to_concentration a p = some c := by
  simp [epa_aqi_to_concentration, hp, hs]

theorem roundtrip_bracket {T : List Breakpoint} {b : Breakpoint}
    (hpw : List.Pairwise brRel T) (hOK : ∀ b' ∈ T, bracketOK b') (hb : b ∈ T)
    (hD : (b.i_high : ℚ) - (b.i_low : ℚ) ≤ 100 * (b.c_high - b.c_low))
    (i : ℤ) (h1 : b.i_low < i) (h2 : i < b.i_high) :
    ∃ c, scanInvert (i : ℚ) T = some c ∧
      |calculate_aqi_for_pollutant c T - i| ≤ 1 := by
  obtain ⟨hcl0, hclh, hil0, hilh, hih5⟩ := hOK b hb
  have hi1 : (b.i_low : ℚ) < (i : ℚ) := by exact_mod_cast h1
  have hi2 : ((i : ℚ)) < (b.i_high : ℚ) := by exact_mod_cast h2
  have hiden : (0:ℚ) < (b.i_high : ℚ) - (b.i_low : ℚ) := by linarith
  have hcden : (0:ℚ) < b.c_high - b.c_low := by linarith
  have hs_ge : 1/100 ≤ (b.c_high - b.c_low) / ((b.i_high : ℚ) - (b.i_low : ℚ)) := by
    rw [le_div_iff₀ hiden]
    linarith
  have hcstar : invert_interpolate (i : ℚ) b =
      (b.c_high - b.c_low) / ((b.i_high : ℚ) - (b.i_low : ℚ)) * ((i:ℚ) - b.i_low) + b.c_low :=
    rfl
  have hcc := abs_round2_sub (invert_interpolate (i : ℚ) b)
  have habs := abs_le.mp hcc
  have hstep1 : (1:ℚ) ≤ (i:ℚ) - (b.i_low : ℚ) := by
    have : b.i_low + 1 ≤ i := by omega
    have h' : ((b.i_low : ℚ)) + 1 ≤ (i : ℚ) := by exact_mod_cast this
    linarith
  have hstep2 : (1:ℚ) ≤ (b.i_high : ℚ) - (i:ℚ) := by
    have : i + 1 ≤ b.i_high := by omega
    have h' : ((i : ℚ)) + 1 ≤ (b.i_high : ℚ) := by exact_mod_cast this
    linarith
  have hmul : (b.c_high - b.c_low) / ((b.i_high : ℚ) - (b.i_low : ℚ)) *
      ((b.i_high : ℚ) - (b.i_low : ℚ)) = b.c_high - b.c_low :=
    div_mul_cancel₀ _ (ne_of_gt hiden)
  have hm1 : (b.c_high - b.c_low) / ((b.i_high : ℚ) - (b.i_low : ℚ)) ≤
      invert_interpolate (i : ℚ) b - b.c_low := by
    rw [hcstar]
    have := mul_le_mul_of_nonneg_left hstep1 (le_of_lt (div_pos hcden hiden))
    linarith
  have hm2 : (b.c_high - b.c_low) / ((b.i_high : ℚ) - (b.i_low : ℚ)) ≤
      b.c_high - invert_interpolate (i : ℚ) b := by
    rw [hcstar]
    have hx : ((i:ℚ) - b.i_low) + ((b.i_high : ℚ) - (i:ℚ)) = (b.i_high : ℚ) - b.i_low := by ring
    have := mul_le_mul_of_nonneg_left hstep2 (le_of_lt (div_pos hcden hiden))
    nlinarith [hmul]
  have hcg : b.c_low < round2 (invert_interpolate (i : ℚ) b) := by linarith
  have hcle : round2 (invert_interpolate (i : ℚ) b) < b.c_high := by linarith
  have hfwd : calculate_aqi_for_pollutant (round2 (invert_interpolate (i : ℚ) b)) T =
      pyRound (interpolate_aqi (round2 (invert_interpolate (i : ℚ) b)) b) := by
    unfold calculate_aqi_for_pollutant
    rw [if_neg (not_lt.mpr (show (0:ℚ) ≤ round2 (invert_interpolate (i : ℚ) b) by linarith))]
    exact scanBrackets_first hpw hb (le_of_lt hcg) (le_of_lt hcle)
  have hFle : ((b.i_high : ℚ) - (b.i_low : ℚ)) / (b.c_high - b.c_low) ≤ 100 := by
    rw [div_le_iff₀ hcden]
    linarith
  have hFpos : 0 < ((b.i_high : ℚ) - (b.i_low : ℚ)) / (b.c_high - b.c_low) :=
    div_pos hiden hcden
  have hval : interpolate_aqi (round2 (invert_interpolate (i : ℚ) b)) b =
      (i:ℚ) + ((b.i_high : ℚ) - (b.i_low : ℚ)) / (b.c_high - b.c_low) *
        (round2 (invert_interpolate (i : ℚ) b) - invert_interpolate (i : ℚ) b) := by
    unfold interpolate_aqi
    rw [hcstar]
    field_simp
    ring
  have hdev : |interpolate_aqi (round2 (invert_interpolate (i : ℚ) b)) b - (i:ℚ)| ≤ 1/2 := by
    rw [hval]
    have heq : ((i:ℚ) + ((b.i_high : ℚ) - (b.i_low : ℚ)) / (b.c_high - b.c_low) *
        (round2 (invert_interpolate (i : ℚ) b) - invert_interpolate (i : ℚ) b)) - (i:ℚ) =
        ((b.i_high : ℚ) - (b.i_low : ℚ)) / (b.c_high - b.c_low) *
        (round2 (invert_interpolate (i : ℚ) b) - invert_interpolate (i : ℚ) b) := by ring
    rw [heq, abs_mul, abs_of_pos hFpos]
    calc ((b.i_high : ℚ) - (b.i_low : ℚ)) / (b.c_high - b.c_low) *
        |round2 (invert_interpolate (i : ℚ) b) - invert_interpolate (i : ℚ) b| ≤
        100 * (1/200) := by
          apply mul_le_mul hFle hcc (abs_nonneg _) (by norm_num)
      _ = 1/2 := by norm_num
  have hdev' := abs_le.mp hdev
  refine ⟨round2 (invert_interpolate (i : ℚ) b),
    scanInvert_first hpw hb hi1 (le_of_lt hi2), ?_⟩
  rw [hfwd]
  have hlow : i - 1 ≤ pyRound (interpolate_aqi (round2 (invert_interpolate (i : ℚ) b)) b) :=
    le_pyRound_of_le (by push_cast; linarith [hdev'.1])
  have hhigh : pyRound (interpolate_aqi (round2 (invert_interpolate (i : ℚ) b)) b) ≤ i + 1 :=
    pyRound_le_of_le (by push_cast; linarith [hdev'.2])
  rw [abs_le]
  omega

/-- C6 fails as stated for the EPA O3 table: index 202 is strictly inside the
bracket `(0.106, 0.200, 201, 300)`, but its inverse concentration rounds to
two decimals as 0.11, which maps forward to 205 — three units away from 202.
The O3 concentration scale (ppm) is too fine for two-decimal rounding. -/
theorem claim_C6_counterexample :
    EPA_BREAKPOINTS "o3" = some EPA_O3_BREAKPOINTS ∧
    (⟨0.106, 0.200, 201, 300⟩ : Breakpoint) ∈ EPA_O3_BREAKPOINTS ∧
    ((201 : ℤ) < 202 ∧ (202 : ℤ) < 300) ∧
    epa_aqi_to_concentration (202 : ℚ) "o3" = some (11/100) ∧
    calculate_aqi_for_pollutant (11/100) EPA_O3_BREAKPOINTS = 205 ∧
    ¬(|(205 : ℤ) - 202| ≤ 1) := by
  have hpy : pyRound (invert_interpolate (202 : ℚ) ⟨53/500, 1/5, 201, 300⟩ * 100) = 11 :=
    pyRound_eq_of (by norm_num [invert_interpolate]) (by norm_num [invert_interpolate])
  have hr : round2 (invert_interpolate (202 : ℚ) ⟨53/500, 1/5, 201, 300⟩) = 11/100 := by
    unfold round2
    rw [hpy]
    norm_num
  refine ⟨by simp [EPA_BREAKPOINTS], by simp [EPA_O3_BREAKPOINTS], ⟨by norm_num, by norm_num⟩,
    ?_, ?_, by norm_num⟩
  · have hlk : EPA_BREAKPOINTS "o3" = some EPA_O3_BREAKPOINTS := by simp [EPA_BREAKPOINTS]
    norm_num [epa_aqi_to_concentration, hlk, scanInvert, EPA_O3_BREAKPOINTS, hr]
  · unfold calculate_aqi_for_pollutant EPA_O3_BREAKPOINTS
    rw [if_neg (by norm_num)]
    simp only [scanBrackets]
    norm_num [interpolate_aqi]
    exact pyRound_eq_of (by norm_num) (by norm_num)

/-- C6 (amended): for the EPA pm25, pm10, co, no2 and so2 tables — all EPA
tables except O3 — and every integer index strictly inside one of the table's
brackets, inverting the index and mapping the rounded concentration forward
through the same table lands within one unit of the original index. -/
theorem claim_C6_amended :
    ∀ p ∈ ["pm25", "pm10", "co", "no2", "so2"], ∀ T, EPA_BREAKPOINTS p = some T →
      ∀ b ∈ T, ∀ i : ℤ, b.i_low < i → i < b.i_high →
        ∃ c, epa_aqi_to_concentration (i : ℚ) p = some c ∧
          |calculate_aqi_for_pollutant c T - i| ≤ 1 := by
  intro p hp T hpT
  simp only [List.mem_cons, List.not_mem_nil, or_false] at hp
  rcases hp with rfl|rfl|rfl|rfl|rfl
  · have hpm : EPA_BREAKPOINTS "pm25" = some EPA_PM25_BREAKPOINTS := by simp [EPA_BREAKPOINTS]
    rw [hpm] at hpT
    obtain rfl := Option.some.inj hpT
    obtain ⟨hOK, hpw⟩ := allTables_ok EPA_PM25_BREAKPOINTS (by simp [allTables])
    intro b hb i h1 h2
    have hD : (b.i_high : ℚ) - (b.i_low : ℚ) ≤ 100 * (b.c_high - b.c_low) := by
      simp only [EPA_PM25_BREAKPOINTS, List.mem_cons, List.not_mem_nil, or_false] at hb
      rcases hb with rfl|rfl|rfl|rfl|rfl|rfl <;> norm_num
    obtain ⟨c, hscan, habs⟩ := roundtrip_bracket hpw hOK hb hD i h1 h2
    exact ⟨c, epa_aqi_eq_of_scan hpm hscan, habs⟩
  · have hpm : EPA_BREAKPOINTS "pm10" = some EPA_PM10_BREAKPOINTS := by simp [EPA_BREAKPOINTS]
    rw [hpm] at hpT
    obtain rfl := Option.some.inj hpT
    obtain ⟨hOK, hpw⟩ := allTables_ok EPA_PM10_BREAKPOINTS (by simp [allTables])
    intro b hb i h1 h2
    have hD : (b.i_high : ℚ) - (b.i_low : ℚ) ≤ 100 * (b.c_high - b.c_low) := by
      simp only [EPA_PM10_BREAKPOINTS, List.mem_cons, List.not_mem_nil, or_false] at hb
      rcases hb with rfl|rfl|rfl|rfl|rfl|rfl <;> norm_num
    obtain ⟨c, hscan, habs⟩ := roundtrip_bracket hpw hOK hb hD i h1 h2
    exact ⟨c, epa_aqi_eq_of_scan hpm hscan, habs⟩
  · have hpm : EPA_BREAKPOINTS "co" = some EPA_CO_BREAKPOINTS := by simp [EPA_BREAKPOINTS]
    rw [hpm] at hpT
    obtain rfl := Option.some.inj hpT
    obtain ⟨hOK, hpw⟩ := allTables_ok EPA_CO_BREAKPOINTS (by simp [allTables])
    intro b hb i h1 h2
    have hD : (b.i_high : ℚ) - (b.i_low : ℚ) ≤ 100 * (b.c_high - b.c_low) := by
      simp only [EPA_CO_BREAKPOINTS, List.mem_cons, List.not_mem_nil, or_false] at hb
      rcases hb with rfl|rfl|rfl|rfl|rfl|rfl <;> norm_num
    obtain ⟨c, hscan, habs⟩ := roundtrip_bracket hpw hOK hb hD i h1 h2
    exact ⟨c, epa_aqi_eq_of_scan hpm hscan, habs⟩
  · have hpm : EPA_BREAKPOINTS "no2" = some EPA_NO2_BREAKPOINTS := by simp [EPA_BREAKPOINTS]
    rw [hpm] at hpT
    obtain rfl := Option.some.inj hpT
    obtain ⟨hOK, hpw⟩ := allTables_ok EPA_NO2_BREAKPOINTS (by simp [allTables])
    intro b hb i h1 h2
    have hD : (b.i_high : ℚ) - (b.i_low : ℚ) ≤ 100 * (b.c_high - b.c_low) := by
      simp only [EPA_NO2_BREAKPOINTS, List.mem_cons, List.not_mem_nil, or_false] at hb
      rcases hb with rfl|rfl|rfl|rfl|rfl|rfl <;> norm_num
    obtain ⟨c, hscan, habs⟩ := roundtrip_bracket hpw hOK hb hD i h1 h2
    exact ⟨c, epa_aqi_eq_of_scan hpm hscan, habs⟩
  · have hpm : EPA_BREAKPOINTS "so2" = some EPA_SO2_BREAKPOINTS := by simp [EPA_BREAKPOINTS]
    rw [hpm] at hpT
    obtain rfl := Option.some.inj hpT
    obtain ⟨hOK, hpw⟩ := allTables_ok EPA_SO2_BREAKPOINTS (by simp [allTables])
    intro b hb i h1 h2
    have hD : (b.i_high : ℚ) - (b.i_low : ℚ) ≤ 100 * (b.c_high - b.c_low) := by
      simp only [EPA_SO2_BREAKPOINTS, List.mem_cons, List.not_mem_nil, or_false] at hb
      rcases hb with rfl|rfl|rfl|rfl|rfl|rfl <;> norm_num
    obtain ⟨c, hscan, habs⟩ := roundtrip_bracket hpw hOK hb hD i h1 h2
    exact ⟨c, epa_aqi_eq_of_scan hpm hscan, habs⟩

/-- Witness for C6 (amended): EPA PM2.5, index 25 strictly inside the first
bracket. -/
theorem claim_C6_amended_witness :
    "pm25" ∈ ["pm25", "pm10", "co", "no2", "so2"] ∧
    EPA_BREAKPOINTS "pm25" = some EPA_PM25_BREAKPOINTS ∧
    (⟨0.0, 9.0, 0, 50⟩ : Breakpoint) ∈ EPA_PM25_BREAKPOINTS ∧
    (0 : ℤ) < 25 ∧ (25 : ℤ) < 50 ∧
    (∃ c, epa_aqi_to_concentration ((25 : ℤ) : ℚ) "pm25" = some c ∧
      |calculate_aqi_for_pollutant c EPA_PM25_BREAKPOINTS - 25| ≤ 1) := by
  have hmemp : "pm25" ∈ ["pm25", "pm10", "co", "no2", "so2"] := by simp
  have hpm : EPA_BREAKPOINTS "pm25" = some EPA_PM25_BREAKPOINTS := by simp [EPA_BREAKPOINTS]
  have hmb : (⟨0.0, 9.0, 0, 50⟩ : Breakpoint) ∈ EPA_PM25_BREAKPOINTS := by
    simp [EPA_PM25_BREAKPOINTS]
  exact ⟨hmemp, hpm, hmb, by norm_num, by norm_num,
    claim_C6_amended "pm25" hmemp EPA_PM25_BREAKPOINTS hpm ⟨0.0, 9.0, 0, 50⟩ hmb 25
      (by norm_num) (by norm_num)⟩

theorem foldMax_ge_seed (v : ℤ) : ∀ l : List (String × ℤ), v ≤ foldMax v l
  | [] => le_refl v
  | (_, w) :: rest => le_trans (le_max_left v w) (foldMax_ge_seed (max v w) rest)

theorem foldMax_ge_mem (v : ℤ) :
    ∀ l : List (String × ℤ), ∀ pv ∈ l, pv.2 ≤ foldMax v l
  | (s, w) :: rest, pv, hpv => by
    rcases List.mem_cons.mp hpv with rfl | hrest
    · exact le_trans (le_max_right v w) (foldMax_ge_seed (max v w) rest)
    · exact foldMax_ge_mem (max v w) rest pv hrest

theorem foldMax_mem (v : ℤ) :
    ∀ l : List (String × ℤ), foldMax v l = v ∨ ∃ pv ∈ l, foldMax v l = pv.2
  | [] => Or.inl rfl
  | (s, w) :: rest => by
    rcases foldMax_mem (max v w) rest with h | ⟨pv, hpv, h⟩
    · rcases le_or_lt w v with hw | hw
      · left
        rw [foldMax, h, max_eq_left hw]
      · right
        exact ⟨(s, w), List.mem_cons_self _ _, by rw [foldMax, h, max_eq_right (le_of_lt hw)]⟩
    · exact Or.inr ⟨pv, List.mem_cons_of_mem _ hpv, h⟩

theorem foldArgmax_mem (best : String × ℤ) :
    ∀ l : List (String × ℤ), foldArgmax best l = best ∨ foldArgmax best l ∈ l
  | [] => Or.inl rfl
  | p :: rest => by
    rw [foldArgmax]
    rcases foldArgmax_mem (if best.2 < p.2 then p else best) rest with h | h
    · rw [h]
      split_ifs with hc
      · exact Or.inr (List.mem_cons_self _ _)
      · exact Or.inl rfl
    · exact Or.inr (List.mem_cons_of_mem _ h)

theorem foldArgmax_val (best : String × ℤ) :
    ∀ l : List (String × ℤ), (foldArgmax best l).2 = foldMax best.2 l
  | [] => rfl
  | (s, w) :: rest => by
    rw [foldArgmax, foldMax]
    by_cases h : best.2 < w
    · rw [if_pos h, foldArgmax_val (s, w) rest, max_eq_right (le_of_lt h)]
    · rw [if_neg h, foldArgmax_val best rest, max_eq_left (not_lt.mp h)]

theorem computeSubIndices_ne_nil {table : String → Option (List Breakpoint)}
    {p : String} {c : ℚ} :
    ∀ {reading : List (String × Option ℚ)}, (p, some c) ∈ reading → (table p).isSome →
      computeSubIndices table reading ≠ []
  | [], hmem, _ => absurd hmem (List.not_mem_nil _)
  | (q, oc) :: rest, hmem, hsome => by
    rcases List.mem_cons.mp hmem with heq | hrest
    · obtain ⟨rfl, rfl⟩ := Prod.mk.injEq .. ▸ heq
      obtain ⟨bps, hbps⟩ := Option.isSome_iff_exists.mp hsome
      simp only [computeSubIndices, hbps]
      exact List.cons_ne_nil _ _
    · rcases oc with _ | c'
      · simpa only [computeSubIndices] using computeSubIndices_ne_nil hrest hsome
      · rcases hq : table q with _ | bps
        · simpa only [computeSubIndices, hq] using computeSubIndices_ne_nil hrest hsome
        · simp only [computeSubIndices, hq]
          exact List.cons_ne_nil _ _

theorem computeSubIndices_spec {table : String → Option (List Breakpoint)} :
    ∀ {reading : List (String × Option ℚ)},
      ∀ pv ∈ computeSubIndices table reading, ∃ c bps,
        (pv.1, some c) ∈ reading ∧ table pv.1 = some bps ∧
        pv.2 = calculate_aqi_for_pollutant c bps
  | [], pv, hpv => absurd hpv (by simp [computeSubIndices])
  | (q, oc) :: rest, pv, hpv => by
    rcases oc with _ | c'
    · obtain ⟨c, bps, h1, h2, h3⟩ :=
        computeSubIndices_spec pv (by simpa only [computeSubIndices] using hpv)
      exact ⟨c, bps, List.mem_cons_of_mem _ h1, h2, h3⟩
    · rcases hq : table q with _ | bps
      · simp only [computeSubIndices, hq] at hpv
        obtain ⟨c, bps, h1, h2, h3⟩ := computeSubIndices_spec pv hpv
        exact ⟨c, bps, List.mem_cons_of_mem _ h1, h2, h3⟩
      · simp only [computeSubIndices, hq] at hpv
        rcases List.mem_cons.mp hpv with rfl | hrest
        · exact ⟨c', bps, List.mem_cons_self _ _, hq, rfl⟩
        · obtain ⟨c, bps', h1, h2, h3⟩ := computeSubIndices_spec pv hrest
          exact ⟨c, bps', List.mem_cons_of_mem _ h1, h2, h3⟩

/-- C4: whenever a reading contains a recognized pollutant with a non-null
concentration, the aggregator returns a result whose overall index is the
maximum of the per-pollutant sub-indices (each computed by
`calculate_aqi_for_pollutant`) and whose dominant pollutant attains that
maximum; in particular `{'pm25': 12.0, 'pm10': 54}` under EPA yields 56 with
dominant pollutant PM2.5, the larger of the two sub-indices. -/
theorem claim_C4 :
    (∀ (reading : List (String × Option ℚ)) (std : AQIStandard),
      (∃ p c, (p, some c) ∈ reading ∧ (breakpointTableOf std p).isSome) →
      ∃ r, calculate_aqi reading std = some r ∧
        (∀ pv ∈ computeSubIndices (breakpointTableOf std) reading, pv.2 ≤ r.aqi) ∧
        (∃ pv ∈ computeSubIndices (breakpointTableOf std) reading,
          pv.2 = r.aqi ∧ r.dominant_pollutant = pollutantDisplayName pv.1) ∧
        (∀ pv ∈ computeSubIndices (breakpointTableOf std) reading, ∃ c bps,
          (pv.1, some c) ∈ reading ∧ breakpointTableOf std pv.1 = some bps ∧
          pv.2 = calculate_aqi_for_pollutant c bps)) ∧
    (∃ r, calculate_aqi [("pm25", some 12), ("pm10", some 54)] AQIStandard.EPA = some r ∧
      r.aqi = 56 ∧ r.dominant_pollutant = "PM2.5" ∧
      r.aqi = max (calculate_aqi_for_pollutant 12 EPA_PM25_BREAKPOINTS)
        (calculate_aqi_for_pollutant 54 EPA_PM10_BREAKPOINTS)) := by
  constructor
  · intro reading std hyp
    obtain ⟨p, c, hmem, hsome⟩ := hyp
    have hne := computeSubIndices_ne_nil hmem hsome
    rcases hsubs : computeSubIndices (breakpointTableOf std) reading with _ | ⟨⟨p0, v0⟩, rest0⟩
    · exact absurd hsubs hne
    · refine ⟨_, by rw [calculate_aqi, hsubs], ?_, ?_, ?_⟩
      · intro pv hpv
        rcases List.mem_cons.mp hpv with rfl | hrest
        · exact foldMax_ge_seed v0 rest0
        · exact foldMax_ge_mem v0 rest0 pv hrest
      · refine ⟨foldArgmax (p0, v0) rest0, ?_, foldArgmax_val (p0, v0) rest0, rfl⟩
        rcases foldArgmax_mem (p0, v0) rest0 with h | h
        · rw [h]
          exact List.mem_cons_self _ _
        · exact List.mem_cons_of_mem _ h
      · intro pv hpv
        rw [← hsubs] at hpv
        exact computeSubIndices_spec pv hpv
  · have h12 : calculate_aqi_for_pollutant 12 EPA_PM25_BREAKPOINTS = 56 := by
      unfold calculate_aqi_for_pollutant EPA_PM25_BREAKPOINTS
      rw [if_neg (by norm_num)]
      simp only [scanBrackets]
      norm_num [interpolate_aqi]
      exact pyRound_eq_of (by norm_num) (by norm_num)
    have h54 : calculate_aqi_for_pollutant 54 EPA_PM10_BREAKPOINTS = 50 := by
      unfold calculate_aqi_for_pollutant EPA_PM10_BREAKPOINTS
      rw [if_neg (by norm_num)]
      simp only [scanBrackets]
      norm_num [interpolate_aqi]
      exact pyRound_eq_of (by norm_num) (by norm_num)
    have hsubs : computeSubIndices (breakpointTableOf AQIStandard.EPA)
        [("pm25", some 12), ("pm10", some 54)] = [("pm25", 56), ("pm10", 50)] := by
      simp [computeSubIndices, breakpointTableOf, EPA_BREAKPOINTS, h12, h54]
    refine ⟨_, by rw [calculate_aqi, hsubs], ?_, ?_, ?_⟩
    · show foldMax 56 [("pm10", 50)] = 56
      norm_num [foldMax]
    · show pollutantDisplayName (foldArgmax ("pm25", 56) [("pm10", 50)]).1 = "PM2.5"
      norm_num [foldArgmax, pollutantDisplayName, POLLUTANT_NAMES]
    · rw [h12, h54]
      show foldMax 56 [("pm10", 50)] = max 56 50
      norm_num [foldMax]

/-- Witness for C4: the reading `{'pm25': 12.0, 'pm10': 54}` under EPA. -/
theorem claim_C4_witness :
    (∃ p c, (p, some c) ∈ [("pm25", some (12:ℚ)), ("pm10", some 54)] ∧
      (breakpointTableOf AQIStandard.EPA p).isSome) ∧
    (∃ r, calculate_aqi [("pm25", some 12), ("pm10", some 54)] AQIStandard.EPA = some r ∧
      (∀ pv ∈ computeSubIndices (breakpointTableOf AQIStandard.EPA)
          [("pm25", some 12), ("pm10", some 54)], pv.2 ≤ r.aqi) ∧
      (∃ pv ∈ computeSubIndices (breakpointTableOf AQIStandard.EPA)
          [("pm25", some 12), ("pm10", some 54)],
        pv.2 = r.aqi ∧ r.dominant_pollutant = pollutantDisplayName pv.1) ∧
      (∀ pv ∈ computeSubIndices (breakpointTableOf AQIStandard.EPA)
          [("pm25", some 12), ("pm10", some 54)], ∃ c bps,
        (pv.1, some c) ∈ [("pm25", some (12:ℚ)), ("pm10", some 54)] ∧
        breakpointTableOf AQIStandard.EPA pv.1 = some bps ∧
        pv.2 = calculate_aqi_for_pollutant c bps)) := by
  have hyp : ∃ p c, (p, some c) ∈ [("pm25", some (12:ℚ)), ("pm10", some 54)] ∧
      (breakpointTableOf AQIStandard.EPA p).isSome :=
    ⟨"pm25", 12, by simp, by simp [breakpointTableOf, EPA_BREAKPOINTS]⟩
  exact ⟨hyp, claim_C4.1 [("pm25", some 12), ("pm10", some 54)] AQIStandard.EPA hyp⟩

theorem naqiValuesOf_spec :
    ∀ {input : List (String × Option ℚ)},
      ∀ pv ∈ naqiValuesOf input, ∃ e c nbps,
        ((pv.1, some e) ∈ input) ∧ epa_aqi_to_concentration e pv.1 = some c ∧
        NAQI_BREAKPOINTS pv.1 = some nbps ∧ pv.2 = calculate_aqi_for_pollutant c nbps
  | [], pv, hpv => absurd hpv (by simp [naqiValuesOf])
  | (q, oe) :: rest, pv, hpv => by
    rcases oe with _ | e
    · obtain ⟨e, c, nbps, h1, h2, h3, h4⟩ :=
        naqiValuesOf_spec pv (by simpa only [naqiValuesOf] using hpv)
      exact ⟨e, c, nbps, List.mem_cons_of_mem _ h1, h2, h3, h4⟩
    · rcases hq : EPA_BREAKPOINTS q with _ | bps
      · simp only [naqiValuesOf, hq] at hpv
        obtain ⟨e', c, nbps, h1, h2, h3, h4⟩ := naqiValuesOf_spec pv hpv
        exact ⟨e', c, nbps, List.mem_cons_of_mem _ h1, h2, h3, h4⟩
      · rcases hconc : epa_aqi_to_concentration e q with _ | c
        · simp only [naqiValuesOf, hq, hconc] at hpv
          obtain ⟨e', c, nbps, h1, h2, h3, h4⟩ := naqiValuesOf_spec pv hpv
          exact ⟨e', c, nbps, List.mem_cons_of_mem _ h1, h2, h3, h4⟩
        · rcases hnb : NAQI_BREAKPOINTS q with _ | nbps
          · simp only [naqiValuesOf, hq, hconc, hnb] at hpv
            obtain ⟨e', c', nbps, h1, h2, h3, h4⟩ := naqiValuesOf_spec pv hpv
            exact ⟨e', c', nbps, List.mem_cons_of_mem _ h1, h2, h3, h4⟩
          · simp only [naqiValuesOf, hq, hconc, hnb] at hpv
            rcases List.mem_cons.mp hpv with rfl | hrest
            · exact ⟨e, c, nbps, List.mem_cons_self _ _, hconc, hnb, rfl⟩
            · obtain ⟨e', c', nbps', h1, h2, h3, h4⟩ := naqiValuesOf_spec pv hrest
              exact ⟨e', c', nbps', List.mem_cons_of_mem _ h1, h2, h3, h4⟩

theorem NAQI_BREAKPOINTS_mem_allTables :
    ∀ p T, NAQI_BREAKPOINTS p = some T → T ∈ allTables := by
  intro p T hp
  unfold NAQI_BREAKPOINTS at hp
  split_ifs at hp <;> (obtain rfl := Option.some.inj hp; simp [allTables])

theorem scanCategories_mem {a : ℤ} :
    ∀ {cats : List (ℤ × String × String × String)} {r : String × String × String},
      scanCategories a cats = some r → ∃ e ∈ cats, r = (e.2.1, e.2.2.1, e.2.2.2)
  | [], r, h => by simp [scanCategories] at h
  | c :: rest, r, h => by
    obtain ⟨t, cat, col, msg⟩ := c
    rw [scanCategories] at h
    split_ifs at h with hc
    · exact ⟨(t, cat, col, msg), List.mem_cons_self _ _, (Option.some.inj h).symm⟩
    · obtain ⟨e, he, hr⟩ := scanCategories_mem h
      exact ⟨e, List.mem_cons_of_mem _ he, hr⟩

theorem naqi_category_ne_unknown (a : ℤ) :
    (get_aqi_category a AQIStandard.NAQI).1 ≠ "Unknown" := by
  unfold get_aqi_category
  rcases h : scanCategories a (categoriesOf AQIStandard.NAQI) with _ | r
  · simp [lastCategory, categoriesOf, NAQI_CATEGORIES]
  · obtain ⟨e, he, hr⟩ := scanCategories_mem h
    simp only [categoriesOf, reduceIte, NAQI_CATEGORIES] at he
    fin_cases he <;> simp [hr]

/-- C5: whenever at least one pollutant survives inversion and forward
mapping, the reconciler returns as overall NAQI the maximum of the
per-pollutant NAQI sub-indices, each equal to the forward NAQI interpolation
of the inverted EPA concentration; the overall NAQI is an integer in
`[0, 500]` and the category is never "Unknown"; in particular
`reconcile({'pm25': 150})` yields NAQI 92 with category "Satisfactory". -/
theorem claim_C5 :
    (∀ input : List (String × Option ℚ), naqiValuesOf input ≠ [] →
      ∃ n : ℤ, (calculate_naqi_from_epa_aqi input).naqi = some n ∧
        0 ≤ n ∧ n ≤ 500 ∧
        (∀ pv ∈ naqiValuesOf input, pv.2 ≤ n) ∧
        (∃ pv ∈ naqiValuesOf input, pv.2 = n) ∧
        (∀ pv ∈ naqiValuesOf input, ∃ e c nbps, (pv.1, some e) ∈ input ∧
          epa_aqi_to_concentration e pv.1 = some c ∧
          NAQI_BREAKPOINTS pv.1 = some nbps ∧
          pv.2 = calculate_aqi_for_pollutant c nbps) ∧
        (calculate_naqi_from_epa_aqi input).naqi_category ≠ "Unknown") ∧
    (calculate_naqi_from_epa_aqi [("pm25", some 150)]).naqi = some 92 ∧
    (calculate_naqi_from_epa_aqi [("pm25", some 150)]).naqi_category = "Satisfactory" := by
  refine ⟨?_, ?_, ?_⟩
  · intro input hne
    rcases hnv : naqiValuesOf input with _ | ⟨⟨p0, v0⟩, rest0⟩
    · exact absurd hnv hne
    · have hnaqi : (calculate_naqi_from_epa_aqi input).naqi = some (foldMax v0 rest0) := by
        simp only [calculate_naqi_from_epa_aqi, hnv]
      have hcat : (calculate_naqi_from_epa_aqi input).naqi_category =
          (get_aqi_category (foldMax v0 rest0) AQIStandard.NAQI).1 := by
        simp only [calculate_naqi_from_epa_aqi, hnv]
      have hvals : ∀ pv ∈ (p0, v0) :: rest0, 0 ≤ pv.2 ∧ pv.2 ≤ 500 := by
        intro pv hpv
        rw [← hnv] at hpv
        obtain ⟨e, c, nbps, _, _, hnb, hval⟩ := naqiValuesOf_spec pv hpv
        rw [hval]
        exact calculate_aqi_for_pollutant_bounds
          (allTables_ok nbps (NAQI_BREAKPOINTS_mem_allTables _ _ hnb)).1 c
      have hbounds : 0 ≤ foldMax v0 rest0 ∧ foldMax v0 rest0 ≤ 500 := by
        rcases foldMax_mem v0 rest0 with h | ⟨pv, hpv, h⟩
        · rw [h]
          exact hvals (p0, v0) (List.mem_cons_self _ _)
        · rw [h]
          exact hvals pv (List.mem_cons_of_mem _ hpv)
      refine ⟨foldMax v0 rest0, hnaqi, hbounds.1, hbounds.2, ?_, ?_, ?_, ?_⟩
      · intro pv hpv
        rcases List.mem_cons.mp hpv with rfl | hrest
        · exact foldMax_ge_seed v0 rest0
        · exact foldMax_ge_mem v0 rest0 pv hrest
      · rcases foldMax_mem v0 rest0 with h | ⟨pv, hpv, h⟩
        · exact ⟨(p0, v0), List.mem_cons_self _ _, h.symm⟩
        · exact ⟨pv, List.mem_cons_of_mem _ hpv, h.symm⟩
      · intro pv hpv
        rw [← hnv] at hpv
        exact naqiValuesOf_spec pv hpv
      · rw [hcat]
        exact naqi_category_ne_unknown _
  · have hpy : pyRound (invert_interpolate (150 : ℚ) ⟨71/2, 277/5, 101, 150⟩ * 100) = 5540 :=
      pyRound_eq_of (by norm_num [invert_interpolate]) (by norm_num [invert_interpolate])
    have hr : round2 (invert_interpolate (150 : ℚ) ⟨71/2, 277/5, 101, 150⟩) = 277/5 := by
      unfold round2
      rw [hpy]
      norm_num
    have hepa : EPA_BREAKPOINTS "pm25" = some EPA_PM25_BREAKPOINTS := by simp [EPA_BREAKPOINTS]
    have hinv : epa_aqi_to_concentration (150 : ℚ) "pm25" = some (277/5) := by
      norm_num [epa_aqi_to_concentration, hepa, scanInvert, EPA_PM25_BREAKPOINTS, hr]
    have hnb : NAQI_BREAKPOINTS "pm25" = some NAQI_PM25_BREAKPOINTS := by
      simp [NAQI_BREAKPOINTS]
    have hcalc : calculate_aqi_for_pollutant (277/5) NAQI_PM25_BREAKPOINTS = 92 := by
      unfold calculate_aqi_for_pollutant NAQI_PM25_BREAKPOINTS
      rw [if_neg (by norm_num)]
      simp only [scanBrackets]
      norm_num [interpolate_aqi]
      exact pyRound_eq_of (by norm_num) (by norm_num)
    have hnv : naqiValuesOf [("pm25", some 150)] = [("pm25", 92)] := by
      simp only [naqiValuesOf, hepa, hinv, hnb, hcalc]
    simp only [calculate_naqi_from_epa_aqi, hnv, foldMax]
  · have hpy : pyRound (invert_interpolate (150 : ℚ) ⟨71/2, 277/5, 101, 150⟩ * 100) = 5540 :=
      pyRound_eq_of (by norm_num [invert_interpolate]) (by norm_num [invert_interpolate])
    have hr : round2 (invert_interpolate (150 : ℚ) ⟨71/2, 277/5, 101, 150⟩) = 277/5 := by
      unfold round2
      rw [hpy]
      norm_num
    have hepa : EPA_BREAKPOINTS "pm25" = some EPA_PM25_BREAKPOINTS := by simp [EPA_BREAKPOINTS]
    have hinv : epa_aqi_to_concentration (150 : ℚ) "pm25" = some (277/5) := by
      norm_num [epa_aqi_to_concentration, hepa, scanInvert, EPA_PM25_BREAKPOINTS, hr]
    have hnb : NAQI_BREAKPOINTS "pm25" = some NAQI_PM25_BREAKPOINTS := by
      simp [NAQI_BREAKPOINTS]
    have hcalc : calculate_aqi_for_pollutant (277/5) NAQI_PM25_BREAKPOINTS = 92 := by
      unfold calculate_aqi_for_pollutant NAQI_PM25_BREAKPOINTS
      rw [if_neg (by norm_num)]
      simp only [scanBrackets]
      norm_num [interpolate_aqi]
      exact pyRound_eq_of (by norm_num) (by norm_num)
    have hnv : naqiValuesOf [("pm25", some 150)] = [("pm25", 92)] := by
      simp only [naqiValuesOf, hepa, hinv, hnb, hcalc]
    have hcat : (calculate_naqi_from_epa_aqi [("pm25", some 150)]).naqi_category =
        (get_aqi_category 92 AQIStandard.NAQI).1 := by
      simp only [calculate_naqi_from_epa_aqi, hnv, foldMax]
    rw [hcat]
    norm_num [get_aqi_category, categoriesOf, NAQI_CATEGORIES, scanCategories]

/-- Witness for C5: the input `{'pm25': 150}`, whose NAQI value list is
nonempty. -/
theorem claim_C5_witness :
    naqiValuesOf [("pm25", some 150)] ≠ [] ∧
    (∃ n : ℤ, (calculate_naqi_from_epa_aqi [("pm25", some 150)]).naqi = some n ∧
      0 ≤ n ∧ n ≤ 500 ∧
      (∀ pv ∈ naqiValuesOf [("pm25", some 150)], pv.2 ≤ n) ∧
      (∃ pv ∈ naqiValuesOf [("pm25", some 150)], pv.2 = n) ∧
      (∀ pv ∈ naqiValuesOf [("pm25", some 150)], ∃ e c nbps,
        (pv.1, some e) ∈ [("pm25", some (150:ℚ))] ∧
        epa_aqi_to_concentration e pv.1 = some c ∧
        NAQI_BREAKPOINTS pv.1 = some nbps ∧
        pv.2 = calculate_aqi_for_pollutant c nbps) ∧
      (calculate_naqi_from_epa_aqi [("pm25", some 150)]).naqi_category ≠ "Unknown") := by
  have hpy : pyRound (invert_interpolate (150 : ℚ) ⟨71/2, 277/5, 101, 150⟩ * 100) = 5540 :=
    pyRound_eq_of (by norm_num [invert_interpolate]) (by norm_num [invert_interpolate])
  have hr : round2 (invert_interpolate (150 : ℚ) ⟨71/2, 277/5, 101, 150⟩) = 277/5 := by
    unfold round2
    rw [hpy]
    norm_num
  have hepa : EPA_BREAKPOINTS "pm25" = some EPA_PM25_BREAKPOINTS := by simp [EPA_BREAKPOINTS]
  have hinv : epa_aqi_to_concentration (150 : ℚ) "pm25" = some (277/5) := by
    norm_num [epa_aqi_to_concentration, hepa, scanInvert, EPA_PM25_BREAKPOINTS, hr]
  have hnb : NAQI_BREAKPOINTS "pm25" = some NAQI_PM25_BREAKPOINTS := by
    simp [NAQI_BREAKPOINTS]
  have hcalc : calculate_aqi_for_pollutant (277/5) NAQI_PM25_BREAKPOINTS = 92 := by
    unfold calculate_aqi_for_pollutant NAQI_PM25_BREAKPOINTS
    rw [if_neg (by norm_num)]
    simp only [scanBrackets]
    norm_num [interpolate_aqi]
    exact pyRound_eq_of (by norm_num) (by norm_num)
  have hnv : naqiValuesOf [("pm25", some 150)] = [("pm25", 92)] := by
    simp only [naqiValuesOf, hepa, hinv, hnb, hcalc]
  have hne : naqiValuesOf [("pm25", some 150)] ≠ [] := by
    rw [hnv]
    exact List.cons_ne_nil _ _
  exact ⟨hne, claim_C5.1 [("pm25", some 150)] hne⟩

/-- C9: the reconciler returns the sentinel (null NAQI, "Unknown" category,
neutral gray, failure message) exactly when no pollutant survives inversion
and forward mapping; in particular `reconcile({})` yields a null NAQI and
category "Unknown". -/
theorem claim_C9 :
    (∀ input : List (String × Option ℚ),
      ((calculate_naqi_from_epa_aqi input).naqi = none ∧
       (calculate_naqi_from_epa_aqi input).naqi_category = "Unknown" ∧
       (calculate_naqi_from_epa_aqi input).naqi_color = "#808080" ∧
       (calculate_naqi_from_epa_aqi input).naqi_message = "Unable to calculate Indian NAQI") ↔
      naqiValuesOf input = []) ∧
    (calculate_naqi_from_epa_aqi []).naqi = none ∧
    (calculate_naqi_from_epa_aqi []).naqi_category = "Unknown" := by
  refine ⟨fun input => ?_, rfl, rfl⟩
  rcases hnv : naqiValuesOf input with _ | ⟨⟨p0, v0⟩, rest0⟩
  · constructor
    · intro _
      rfl
    · intro _
      refine ⟨?_, ?_, ?_, ?_⟩ <;> simp [calculate_naqi_from_epa_aqi, hnv]
  · constructor
    · intro hcon
      have h1 := hcon.1
      simp only [calculate_naqi_from_epa_aqi, hnv] at h1
      exact absurd h1 (Option.some_ne_none _)
    · intro hcon
      exact absurd hcon (List.cons_ne_nil _ _)
